import Mathlib

/-! Roposo product analyzer: scan engine, scroll driver and CSV export.

A shallow embedding of `src/content.js` (class `RoposoProductAnalyzer`) and of
`exportToCSV` from `src/popup.js`.

* JavaScript strings are `String`; `trim`, `toLowerCase`, `startsWith`, `join`
  and `split` are defined on the character lists so that they evaluate.
* A call that may raise is given an `Outcome`; a method that may raise returns a
  `Completion` next to the state it leaves behind (a raised error does not undo
  the assignments made before it).
* The analyzer instance and the parts of the browser it acts on (the
  `localStorage` entry, the pending scroll timers, the scroll position, the
  messages sent to the background script) are one record,
  `RoposoProductAnalyzer`.
* What the page answers during one call (`Date.now()`, `window.location.href`,
  whether `localStorage.setItem` or `chrome.runtime.sendMessage` raise) is an
  `Env`, passed with each call.
-/

namespace Roposo

/-! ## Strings -/

/-- White space and line terminators removed by `String.prototype.trim`. -/
def isTrimChar (c : Char) : Bool :=
  let n := c.toNat
  n == 0x09 || n == 0x0A || n == 0x0B || n == 0x0C || n == 0x0D || n == 0x20 ||
  n == 0xA0 || n == 0x1680 || (0x2000 ≤ n && n ≤ 0x200A) || n == 0x2028 ||
  n == 0x2029 || n == 0x202F || n == 0x205F || n == 0x3000 || n == 0xFEFF

/-- `s.trim()`: drop the white space at both ends. -/
def trim (s : String) : String :=
  String.mk ((((s.data.dropWhile isTrimChar).reverse).dropWhile isTrimChar).reverse)

/-- Lower-casing of one character: `A`..`Z` are mapped to `a`..`z`.  Letters
outside ASCII are left as they are; none of them lower-cases to a letter of
`excellent` or `good`, so the comparison made by `analyzeProduct` is the same. -/
def lowerChar (c : Char) : Char :=
  if 65 ≤ c.toNat ∧ c.toNat ≤ 90 then Char.ofNat (c.toNat + 32) else c

/-- `s.toLowerCase()`. -/
def toLowerCase (s : String) : String :=
  String.mk (s.data.map lowerChar)

/-- `s.startsWith(p)`. -/
def startsWith (s p : String) : Bool :=
  p.data.isPrefixOf s.data

/-- `xs.join(sep)`. -/
def join (xs : List String) (sep : String) : String :=
  String.mk (sep.data.intercalate (xs.map String.data))

/-- `s.split(sep)` for a separator of one character. -/
def split (s : String) (sep : Char) : List String :=
  (s.data.splitOn sep).map String.mk

/-! ## Data model -/

/-- The object built at `content.js:169-175`. -/
structure Product where
  id : String
  name : String
  rating : String
  timestamp : Nat
  url : String
deriving DecidableEq, Repr

/-- Result of a call into the DOM or the extension API: it raises or returns. -/
inductive Outcome (α : Type) where
  | raises : Outcome α
  | value : α → Outcome α
deriving DecidableEq, Repr

/-- How a method ends: it returns, or an error leaves it. -/
inductive Completion where
  | normal : Completion
  | throws : Completion
deriving DecidableEq, Repr

/-- An element found by `querySelector`; `textContent` is `none` for `null`. -/
structure Element where
  textContent : Option String
deriving DecidableEq, Repr

/-- The five selectors `analyzeProduct` passes to `container.querySelector`. -/
inductive Selector where
  | ratingExact        -- 'p.text-\\[9px\\].leading-\\[10px\\].text-theme_1_grey2.font-semibold'
  | ratingSizeLeading  -- 'p[class*="text-[9px]"][class*="leading-[10px]"]'
  | ratingGreySemibold -- 'p[class*="text-theme_1_grey2"][class*="font-semibold"]'
  | textOverflow       -- '.text-overflow'
  | textOverflowAttr   -- '[class*="text-overflow"]'
deriving DecidableEq, Repr

/-- A product card as `analyzeProduct` sees it: its `id` (the empty string when
it has none), the answer of `querySelector` to each selector, and whether
`highlightProduct` raises on it.  The class and the animation `highlightProduct`
puts on the card are not part of the modelled state. -/
structure Container where
  id : String
  querySelector : Selector → Outcome (Option Element)
  highlightProduct : Outcome Unit

/-- What the page answers during one call of `analyzeProduct` or `updateBadge`. -/
structure Env where
  now : Nat
  href : String
  setItem : Outcome Unit
  sendMessage : Outcome Unit
deriving DecidableEq, Repr

/-- The analyzer instance (`excellentProducts`, `processedProducts`,
`autoScrollEnabled`, `scrollTimeout`, `isScrolling`) with the browser state it
acts on.

* `processedProducts` is the `Set` in insertion order.
* `localStorage` is the entry `'excellentProducts'`, held as the array it
  serialises; `none` when the key is absent.
* `badgeMessages` are the counts of the `updateBadge` messages sent, oldest first.
* `ratingLookups` are the ids of the containers whose rating element was looked
  up (the extraction step), oldest first.
* `timers` are the ids of the pending timeouts whose callback is `autoScroll`;
  `nextTimerId` is the id the next `setTimeout` returns.
* `scrollY`, `scrollHeight`, `innerHeight` are `window.scrollY`,
  `document.documentElement.scrollHeight`, `window.innerHeight`;
  `scrollCalls` are the amounts passed to `window.scrollBy`, oldest first. -/
structure RoposoProductAnalyzer where
  excellentProducts : List Product
  processedProducts : List String
  autoScrollEnabled : Bool
  scrollTimeout : Option Nat
  isScrolling : Bool
  localStorage : Option (List Product)
  badgeMessages : List Nat
  ratingLookups : List String
  timers : List Nat
  nextTimerId : Nat
  scrollY : Nat
  scrollHeight : Nat
  innerHeight : Nat
  scrollCalls : List Nat
deriving DecidableEq, Repr

/-- `Set.prototype.add`. -/
def setAdd (s : List String) (x : String) : List String :=
  if x ∈ s then s else s ++ [x]

/-- `a || b` on the results of two `querySelector` calls: `b` is evaluated only
when `a` returned `null`. -/
def orElse (a b : Outcome (Option Element)) : Outcome (Option Element) :=
  match a with
  | .raises => .raises
  | .value (some e) => .value (some e)
  | .value none => b

/-- The rating element, `content.js:147-149`. -/
def ratingElement (c : Container) : Outcome (Option Element) :=
  orElse (c.querySelector .ratingExact)
    (orElse (c.querySelector .ratingSizeLeading) (c.querySelector .ratingGreySemibold))

/-- The name element, `content.js:163-164`. -/
def nameElement (c : Container) : Outcome (Option Element) :=
  orElse (c.querySelector .textOverflow) (c.querySelector .textOverflowAttr)

/-- The expression `el.textContent.trim()`; it raises when `textContent` is `null`. -/
def trimmedText (el : Element) : Outcome String :=
  match el.textContent with
  | none => .raises
  | some t => .value (trim t)

/-- The product name, `content.js:166`. -/
def productName (c : Container) (nameEl : Option Element) : Outcome String :=
  match nameEl with
  | some el => trimmedText el
  | none => .value ("Product " ++ c.id)

/-- The statements of `content.js:178-188` on the array `excellentProducts`:
`findIndex` for the first record with the id, then `push` when there is none
and assignment at the index found otherwise. -/
def addOrUpdate (excellentProducts : List Product) (containerId : String) (product : Product) :
    List Product :=
  match excellentProducts.findIdx? (fun p => p.id == containerId) with
  | none => excellentProducts ++ [product]
  | some existingIndex => excellentProducts.set existingIndex product

/-- The rating text `analyzeProduct` compares, `content.js:147-157`: the text of
the rating element, trimmed and lower-cased; `none` when there is no rating
element or a lookup raises. -/
def ratingText (c : Container) : Option String :=
  match ratingElement c with
  | .value (some el) =>
    match trimmedText el with
    | .value trimmed => some (toLowerCase trimmed)
    | .raises => none
  | _ => none

/-- The test of `content.js:161` on the rating text of a container. -/
def qualifies (c : Container) : Bool :=
  ratingText c = some "excellent" || ratingText c = some "good"

/-- The lookup of the rating element or the reading of its text raises. -/
def ratingRaises (c : Container) : Bool :=
  match ratingElement c with
  | .raises => true
  | .value none => false
  | .value (some el) => trimmedText el = .raises

/-- The lookup of the name element or the reading of its text raises,
`content.js:163-166`. -/
def nameRaises (c : Container) : Bool :=
  match nameElement c with
  | .raises => true
  | .value nameEl => productName c nameEl = .raises

/-- The name given to the product of a container, `content.js:163-166`. -/
def displayName (c : Container) : String :=
  match nameElement c with
  | .value nameEl =>
    match productName c nameEl with
    | .value name => name
    | .raises => ""
  | .raises => ""

/-- The product object `analyzeProduct` builds for a container,
`content.js:169-175`. -/
def productOf (env : Env) (c : Container) : Product :=
  { id := c.id, name := displayName c, rating := (ratingText c).getD "",
    timestamp := env.now, url := env.href }

namespace RoposoProductAnalyzer

/-- The constructor, in a browser with nothing stored, no timer pending, the
page scrolled to `scrollY` in a document of height `scrollHeight` seen through
a window of height `innerHeight`. -/
def new (scrollY scrollHeight innerHeight : Nat) : RoposoProductAnalyzer :=
  { excellentProducts := []
    processedProducts := []
    autoScrollEnabled := false
    scrollTimeout := none
    isScrolling := false
    localStorage := none
    badgeMessages := []
    ratingLookups := []
    timers := []
    nextTimerId := 1
    scrollY := scrollY
    scrollHeight := scrollHeight
    innerHeight := innerHeight
    scrollCalls := [] }

/-- `loadExistingProducts`, `content.js:64-73`; `getItem` is the outcome of
`localStorage.getItem` (on an error the store is emptied). -/
def loadExistingProducts (self : RoposoProductAnalyzer) (getItem : Outcome Unit) :
    RoposoProductAnalyzer :=
  match getItem with
  | .raises => { self with excellentProducts := [] }
  | .value _ =>
    match self.localStorage with
    | some stored => { self with excellentProducts := stored }
    | none => { self with excellentProducts := [] }

/-- `saveProducts`, `content.js:76-83`: the error of `setItem` is caught. -/
def saveProducts (self : RoposoProductAnalyzer) (env : Env) : RoposoProductAnalyzer :=
  match env.setItem with
  | .raises => self
  | .value _ => { self with localStorage := some self.excellentProducts }

/-- `updateBadge`, `content.js:283-288`. -/
def updateBadge (self : RoposoProductAnalyzer) (env : Env) :
    Completion × RoposoProductAnalyzer :=
  match env.sendMessage with
  | .raises => (.throws, self)
  | .value _ =>
    (.normal, { self with badgeMessages := self.badgeMessages ++ [self.excellentProducts.length] })

/-- The `try` block of `analyzeProduct`, `content.js:146-204`. -/
def analyzeTry (self : RoposoProductAnalyzer) (env : Env) (container : Container) :
    Completion × RoposoProductAnalyzer :=
  let self := { self with ratingLookups := self.ratingLookups ++ [container.id] }
  match ratingElement container with
  | .raises => (.throws, self)
  | .value none =>
    (.normal, { self with processedProducts := setAdd self.processedProducts container.id })
  | .value (some ratingEl) =>
    match trimmedText ratingEl with
    | .raises => (.throws, self)
    | .value trimmed =>
      let ratingText := toLowerCase trimmed
      if ratingText = "excellent" ∨ ratingText = "good" then
        match nameElement container with
        | .raises => (.throws, self)
        | .value nameEl =>
          match productName container nameEl with
          | .raises => (.throws, self)
          | .value name =>
            let product : Product :=
              { id := container.id, name := name, rating := ratingText,
                timestamp := env.now, url := env.href }
            let self :=
              { self with
                excellentProducts := addOrUpdate self.excellentProducts container.id product }
            match container.highlightProduct with
            | .raises => (.throws, self)
            | .value _ =>
              let self := saveProducts self env
              match env.sendMessage with
              | .raises => (.throws, self)
              | .value _ =>
                let self :=
                  { self with
                    badgeMessages := self.badgeMessages ++ [self.excellentProducts.length] }
                (.normal,
                  { self with processedProducts := setAdd self.processedProducts container.id })
      else
        (.normal, { self with processedProducts := setAdd self.processedProducts container.id })

/-- `analyzeProduct`, `content.js:139-210`; `none` is a `null` container. -/
def analyzeProduct (self : RoposoProductAnalyzer) (env : Env) (container : Option Container) :
    Completion × RoposoProductAnalyzer :=
  match container with
  | none => (.normal, self)
  | some container =>
    if container.id = "" then (.normal, self)
    else if container.id ∈ self.processedProducts then (.normal, self)
    else
      match analyzeTry self env container with
      | (.normal, self) => (.normal, self)
      | (.throws, self) =>
        (.normal, { self with processedProducts := setAdd self.processedProducts container.id })

/-- `xs.forEach(f)`: the callback runs on each item in order; an error raised by
a callback ends the loop. -/
def forEach {σ α : Type} (f : σ → α → Completion × σ) : σ → List α → Completion × σ
  | s, [] => (.normal, s)
  | s, x :: xs =>
    match f s x with
    | (.normal, s) => forEach f s xs
    | (.throws, s) => (.throws, s)

/-- The id prefix of a product card. -/
def productItemIdStart : String := "category-page-product-item-"

/-- `querySelectorAll('[id^="category-page-product-item-"]')` over the elements
`elements` of a document or subtree, listed in document order.  Each element
comes with the `Env` that answers while it is analysed. -/
def querySelectorAll (elements : List (Env × Container)) : List (Env × Container) :=
  elements.filter (fun e => startsWith e.2.id productItemIdStart)

/-- `scanExistingProducts`, `content.js:86-95`; `env` answers the final
`updateBadge`. -/
def scanExistingProducts (self : RoposoProductAnalyzer) (document : List (Env × Container))
    (env : Env) : Completion × RoposoProductAnalyzer :=
  let productContainers := querySelectorAll document
  match forEach (fun self (e : Env × Container) => analyzeProduct self e.1 (some e.2))
      self productContainers with
  | (.throws, self) => (.throws, self)
  | (.normal, self) => updateBadge self env

/-- `rescanAllProducts`, `content.js:311-315`. -/
def rescanAllProducts (self : RoposoProductAnalyzer) (document : List (Env × Container))
    (env : Env) : Completion × RoposoProductAnalyzer :=
  scanExistingProducts { self with processedProducts := [] } document env

/-- `clearAllData`, `content.js:296-308`; `removeItem` is the outcome of
`localStorage.removeItem`. -/
def clearAllData (self : RoposoProductAnalyzer) (removeItem : Outcome Unit) (env : Env) :
    Completion × RoposoProductAnalyzer :=
  let self := { self with excellentProducts := [], processedProducts := [] }
  match removeItem with
  | .raises => (.throws, self)
  | .value _ => updateBadge { self with localStorage := none } env

/-- A node of `mutation.addedNodes`: its `nodeType`, the node itself as a
container (with the `Env` of its analysis), and its descendant elements in
document order, `none` when the node has no `querySelectorAll`. -/
structure Node where
  nodeType : Nat
  self : Env × Container
  descendants : Option (List (Env × Container))

/-- A mutation record. -/
structure MutationRecord where
  addedNodes : List Node

/-- The body of `mutation.addedNodes.forEach`, `content.js:103-120`, on the pair
of `newProductsFound` and the analyzer. -/
def observeNode (st : Bool × RoposoProductAnalyzer) (node : Node) :
    Completion × (Bool × RoposoProductAnalyzer) :=
  if node.nodeType = 1 then
    let own : Completion × (Bool × RoposoProductAnalyzer) :=
      if node.self.2.id ≠ "" ∧ startsWith node.self.2.id productItemIdStart then
        match analyzeProduct st.2 node.self.1 (some node.self.2) with
        | (.normal, self) => (.normal, (true, self))
        | (.throws, self) => (.throws, (st.1, self))
      else (.normal, st)
    match own with
    | (.throws, st) => (.throws, st)
    | (.normal, st) =>
      let productContainers :=
        match node.descendants with
        | some elements => querySelectorAll elements
        | none => []
      forEach (fun (st : Bool × RoposoProductAnalyzer) (e : Env × Container) =>
          match analyzeProduct st.2 e.1 (some e.2) with
          | (.normal, self) => (.normal, (true, self))
          | (.throws, self) => (.throws, (st.1, self)))
        st productContainers
  else (.normal, st)

/-- The containers the observer callback hands to `analyzeProduct` for one
added node, in the order of the calls. -/
def nodeCandidates (node : Node) : List (Env × Container) :=
  if node.nodeType = 1 then
    (if node.self.2.id ≠ "" ∧ startsWith node.self.2.id productItemIdStart then [node.self]
      else []) ++
    (match node.descendants with
      | some elements => querySelectorAll elements
      | none => [])
  else []

/-- The containers the observer callback hands to `analyzeProduct` for one
delivered batch. -/
def batchCandidates (mutations : List MutationRecord) : List (Env × Container) :=
  (mutations.map (fun m => (m.addedNodes.map nodeCandidates).flatten)).flatten

/-- The two nested loops of the observer callback, `content.js:100-121`. -/
def observeMutations (self : RoposoProductAnalyzer) (mutations : List MutationRecord) :
    Completion × (Bool × RoposoProductAnalyzer) :=
  forEach (fun st (mutation : MutationRecord) => forEach observeNode st mutation.addedNodes)
    (false, self) mutations

/-- The callback given to `MutationObserver`, `content.js:99-127`; `env` answers
the `updateBadge` at its end. -/
def mutationCallback (self : RoposoProductAnalyzer) (mutations : List MutationRecord)
    (env : Env) : Completion × RoposoProductAnalyzer :=
  match observeMutations self mutations with
  | (.throws, st) => (.throws, st.2)
  | (.normal, (newProductsFound, self)) =>
    if newProductsFound then updateBadge self env else (.normal, self)

/-! ### Scroll driver -/

/-- `window.scrollBy(0, dy)`: the position moves down by `dy`, no further than
the bottom of the document. -/
def scrollBy (self : RoposoProductAnalyzer) (dy : Nat) : RoposoProductAnalyzer :=
  { self with
    scrollY := min (self.scrollY + dy) (self.scrollHeight - self.innerHeight)
    scrollCalls := self.scrollCalls ++ [dy] }

/-- `clearTimeout(id)`. -/
def clearTimeout (self : RoposoProductAnalyzer) (id : Nat) : RoposoProductAnalyzer :=
  { self with timers := self.timers.filter (fun t => t != id) }

/-- `autoScroll`, `content.js:256-280`. -/
def autoScroll (self : RoposoProductAnalyzer) : RoposoProductAnalyzer :=
  if !self.autoScrollEnabled then { self with isScrolling := false }
  else
    let currentScrollY := self.scrollY
    let documentHeight := self.scrollHeight
    let windowHeight := self.innerHeight
    let self :=
      if (currentScrollY : Int) + windowHeight ≥ (documentHeight : Int) - 1000 then
        scrollBy self 500
      else scrollBy self 300
    { self with
      scrollTimeout := some self.nextTimerId
      timers := self.timers ++ [self.nextTimerId]
      nextTimerId := self.nextTimerId + 1 }

/-- `startAutoScroll`, `content.js:237-245`. -/
def startAutoScroll (self : RoposoProductAnalyzer) : RoposoProductAnalyzer :=
  if self.isScrolling then self
  else autoScroll { self with autoScrollEnabled := true, isScrolling := true }

/-- `stopAutoScroll`, `content.js:247-254`; a timer id is truthy unless it is `0`. -/
def stopAutoScroll (self : RoposoProductAnalyzer) : RoposoProductAnalyzer :=
  let self := { self with autoScrollEnabled := false, isScrolling := false }
  match self.scrollTimeout with
  | some id => if id ≠ 0 then clearTimeout self id else self
  | none => self

/-- The timeout `id` elapses: if it is pending it is removed and its callback,
`autoScroll`, runs; a timeout that is not pending does nothing. -/
def timerFires (self : RoposoProductAnalyzer) (id : Nat) : RoposoProductAnalyzer :=
  if id ∈ self.timers then autoScroll { self with timers := self.timers.filter (fun t => t != id) }
  else self

/-- An amount of simulated time passes: the timeouts `ids` elapse in turn. -/
def elapse (self : RoposoProductAnalyzer) (ids : List Nat) : RoposoProductAnalyzer :=
  ids.foldl timerFires self

/-! ### Runs -/

/-- What can happen to the analyzer: a method is called (by the initialisation,
the observer, the message listener or a timer), or the page is scrolled or
resized by someone else. -/
inductive Event where
  | analyzeProduct (env : Env) (container : Option Container)
  | scanExistingProducts (document : List (Env × Container)) (env : Env)
  | rescanAllProducts (document : List (Env × Container)) (env : Env)
  | mutations (batch : List MutationRecord) (env : Env)
  | loadExistingProducts (getItem : Outcome Unit)
  | clearAllData (removeItem : Outcome Unit) (env : Env)
  | startAutoScroll
  | stopAutoScroll
  | timerFires (id : Nat)
  | page (scrollY scrollHeight innerHeight : Nat)

/-- The state after one event. -/
def step (self : RoposoProductAnalyzer) : Event → RoposoProductAnalyzer
  | .analyzeProduct env container => (analyzeProduct self env container).2
  | .scanExistingProducts document env => (scanExistingProducts self document env).2
  | .rescanAllProducts document env => (rescanAllProducts self document env).2
  | .mutations batch env => (mutationCallback self batch env).2
  | .loadExistingProducts getItem => loadExistingProducts self getItem
  | .clearAllData removeItem env => (clearAllData self removeItem env).2
  | .startAutoScroll => startAutoScroll self
  | .stopAutoScroll => stopAutoScroll self
  | .timerFires id => timerFires self id
  | .page scrollY scrollHeight innerHeight =>
    { self with scrollY := scrollY, scrollHeight := scrollHeight, innerHeight := innerHeight }

/-- The state after a sequence of events. -/
def run (self : RoposoProductAnalyzer) (events : List Event) : RoposoProductAnalyzer :=
  events.foldl step self

/-- The event is a call of `loadExistingProducts`. -/
def Event.hydrates : Event → Bool
  | .loadExistingProducts _ => true
  | _ => false

/-- The fields the scroll driver reads or writes. -/
def scrollDriver (self : RoposoProductAnalyzer) :
    Bool × Option Nat × Bool × List Nat × Nat × Nat × Nat × Nat × List Nat :=
  (self.autoScrollEnabled, self.scrollTimeout, self.isScrolling, self.timers, self.nextTimerId,
    self.scrollY, self.scrollHeight, self.innerHeight, self.scrollCalls)

/-- The invariant of the scroll driver: the two flags agree, timer ids are
positive and below the next id, and a timer is pending only while scrolling,
in which case it is the single timer held in `scrollTimeout`. -/
def ScrollInv (self : RoposoProductAnalyzer) : Prop :=
  self.autoScrollEnabled = self.isScrolling ∧
  1 ≤ self.nextTimerId ∧
  (∀ id, self.scrollTimeout = some id → 1 ≤ id ∧ id < self.nextTimerId) ∧
  (self.timers = [] ∨
    (self.isScrolling = true ∧ ∃ id, self.timers = [id] ∧ self.scrollTimeout = some id))

/-- The fields the scan engine reads or writes. -/
def scanEngine (self : RoposoProductAnalyzer) :
    List Product × List String × Option (List Product) × List Nat × List String :=
  (self.excellentProducts, self.processedProducts, self.localStorage, self.badgeMessages,
    self.ratingLookups)

/-! ### Initialisation and persistence -/

/-- `init`, `content.js:15-22`: the store is loaded, the page is scanned, the
observer is set up.  `injectStyles` and the registration of the observer act
on the page only; the batches the observer delivers later are the events
`mutations`.  An error of `scanExistingProducts` leaves `init` before the
observer is set up. -/
def init (self : RoposoProductAnalyzer) (getItem : Outcome Unit)
    (document : List (Env × Container)) (env : Env) : Completion × RoposoProductAnalyzer :=
  let self := loadExistingProducts self getItem
  scanExistingProducts self document env

/-- The containers an event hands to `analyzeProduct`, each with the `Env` of
its call, in the order of the calls. -/
def Event.visits : Event → List (Env × Container)
  | .analyzeProduct env (some container) => [(env, container)]
  | .scanExistingProducts document _ => querySelectorAll document
  | .rescanAllProducts document _ => querySelectorAll document
  | .mutations batch _ => batchCandidates batch
  | _ => []

/-- No call into `localStorage` raises during the event: neither `setItem` in a
call of `analyzeProduct`, nor `getItem`, nor `removeItem`. -/
def Event.storageAnswers (e : Event) : Prop :=
  (∀ v ∈ e.visits, v.1.setItem = .value ()) ∧
  (match e with
    | .loadExistingProducts getItem => getItem = .value ()
    | .clearAllData removeItem _ => removeItem = .value ()
    | _ => True)

/-- The highlight raises on no container the event hands to `analyzeProduct`. -/
def Event.highlightAnswers (e : Event) : Prop :=
  ∀ v ∈ e.visits, v.2.highlightProduct = .value ()

/-- A `loadExistingProducts` that `localStorage` answers would give the store
the analyzer holds. -/
def Persisted (self : RoposoProductAnalyzer) : Prop :=
  (loadExistingProducts self (.value ())).excellentProducts = self.excellentProducts

end RoposoProductAnalyzer

/-! ## Sample inputs -/

/-- A product card whose rating element, found by the first selector, has the
text `rating` (no rating element for `none`) and whose name element has the
text `name` (no name element for `none`); no call on it raises. -/
def card (id : String) (rating name : Option String) : Container :=
  { id := id
    querySelector := fun sel =>
      match sel with
      | .ratingExact => .value (rating.map (fun t => { textContent := some t }))
      | .textOverflow => .value (name.map (fun t => { textContent := some t }))
      | _ => .value none
    highlightProduct := .value () }

/-- A malformed card: every `querySelector` on it raises, and so does
`highlightProduct`. -/
def brokenCard (id : String) : Container :=
  { id := id
    querySelector := fun _ => .raises
    highlightProduct := .raises }

/-- A card like `card id rating name` on which `highlightProduct` raises, as on
an element that has no `style`. -/
def unstyledCard (id : String) (rating name : Option String) : Container :=
  { card id rating name with highlightProduct := .raises }

/-- A page on which nothing raises, read at time `now`. -/
def calmEnv (now : Nat) : Env :=
  { now := now, href := "https://app.roposoclout.com/marketplace",
    setItem := .value (), sendMessage := .value () }

/-! ## CSV export (`popup.js`) -/

/-- `exportToCSV`, `popup.js:221-231`; `toLocaleString t` stands for
`new Date(t).toLocaleString()`. -/
def exportToCSV (toLocaleString : Nat → String) (products : List Product) : String :=
  let headers := ["Product Name", "Rating", "Product ID", "Found At"]
  let rows := products.map (fun product =>
    ["\"" ++ product.name ++ "\"", product.rating, product.id, toLocaleString product.timestamp])
  join (join headers "," :: rows.map (fun row => join row ",")) "\n"

/-! ## Loading the products into the popup (`popup.js`) -/

/-- The popup as `loadProductData` changes it: the products listed in
`#products-list`, in the order shown, and the two counters `#product-count`
and `#processed-count`. -/
structure Popup where
  productsList : List Product
  productCount : Nat
  processedCount : Nat
deriving DecidableEq, Repr

/-- The response to `getExcellentProducts` as `loadProductData` reads it:
`products` is `none` when the field is missing, `processedCount` is `none`
when it is missing (the content script does not send it). -/
structure Response where
  products : Option (List Product)
  count : Nat
  processedCount : Option Nat
deriving DecidableEq, Repr

/-- The response the listener of the content script sends for
`getExcellentProducts`, `content.js:333-338`. -/
def getExcellentProductsResponse (analyzer : RoposoProductAnalyzer) : Response :=
  { products := some analyzer.excellentProducts
    count := analyzer.excellentProducts.length
    processedCount := none }

/-- `displayProducts`, `popup.js:107-135`: nothing is listed for an empty
array; otherwise the products are sorted by timestamp, newest first (the sort
is stable), and listed. -/
def displayProducts (popup : Popup) (products : List Product) : Popup :=
  if products.length = 0 then { popup with productsList := [] }
  else
    { popup with
      productsList := products.insertionSort (fun a b => b.timestamp ≤ a.timestamp) }

/-- `updateStats`, `popup.js:145-148`. -/
def updateStats (popup : Popup) (foundCount scannedCount : Nat) : Popup :=
  { popup with productCount := foundCount, processedCount := scannedCount }

/-- `loadFromLocalStorage`, `popup.js:86-92`.  It reads the entry
`'excellentProducts'` of `chrome.storage.local`, the storage area of the
extension, given here as `storageLocal` (`none` when the entry is absent).
This is not the `localStorage` of the page that `saveProducts` writes, and no
file of the repository writes to `chrome.storage.local`. -/
def loadFromLocalStorage (popup : Popup) (storageLocal : Option (List Product)) : Popup :=
  let products := storageLocal.getD []
  updateStats (displayProducts popup products) products.length 0

/-- The callback of `chrome.tabs.sendMessage` in `loadProductData`,
`popup.js:68-81`: `lastError` is `chrome.runtime.lastError`, `response` is
`none` when no response came. -/
def loadProductData (popup : Popup) (lastError : Bool) (response : Option Response)
    (storageLocal : Option (List Product)) : Popup :=
  if lastError then loadFromLocalStorage popup storageLocal
  else
    match response with
    | some response =>
      match response.products with
      | some products =>
        updateStats (displayProducts popup products) response.count
          (response.processedCount.getD 0)
      | none => loadFromLocalStorage popup storageLocal
    | none => loadFromLocalStorage popup storageLocal

end Roposo

namespace Roposo

open RoposoProductAnalyzer

/-! ## The record store under `addOrUpdate` -/

theorem addOrUpdate_nil (cid : String) (q : Product) : addOrUpdate [] cid q = [q] := rfl

theorem addOrUpdate_cons (p : Product) (ps : List Product) (cid : String) (q : Product) :
    addOrUpdate (p :: ps) cid q =
      if p.id = cid then q :: ps else p :: addOrUpdate ps cid q := by
  unfold addOrUpdate
  rw [List.findIdx?_cons]
  by_cases h : p.id = cid
  · simp [h]
  · simp only [h, beq_iff_eq, if_false, zero_add, List.findIdx?_start_succ]
    cases hf : List.findIdx? (fun p => p.id == cid) ps 0 <;> simp

theorem addOrUpdate_ids_of_mem (ps : List Product) (cid : String) (q : Product)
    (hq : q.id = cid) (hmem : cid ∈ ps.map (fun p => p.id)) :
    (addOrUpdate ps cid q).map (fun p => p.id) = ps.map (fun p => p.id) := by
  induction ps with
  | nil => simp at hmem
  | cons p ps ih =>
    rw [addOrUpdate_cons]
    by_cases h : p.id = cid
    · simp [h, hq]
    · have : cid ∈ ps.map (fun p => p.id) := by
        simp only [List.map_cons, List.mem_cons] at hmem
        rcases hmem with hm | hm
        · exact absurd hm.symm h
        · exact hm
      simp [h, ih this]

theorem addOrUpdate_of_not_mem (ps : List Product) (cid : String) (q : Product)
    (hmem : cid ∉ ps.map (fun p => p.id)) :
    addOrUpdate ps cid q = ps ++ [q] := by
  induction ps with
  | nil => rfl
  | cons p ps ih =>
    rw [addOrUpdate_cons]
    simp only [List.map_cons, List.mem_cons, not_or] at hmem
    have h : ¬ p.id = cid := fun h => hmem.1 h.symm
    simp [h, ih hmem.2]

theorem addOrUpdate_ids (ps : List Product) (cid : String) (q : Product) (hq : q.id = cid) :
    (addOrUpdate ps cid q).map (fun p => p.id) =
      if cid ∈ ps.map (fun p => p.id) then ps.map (fun p => p.id)
      else ps.map (fun p => p.id) ++ [cid] := by
  by_cases hmem : cid ∈ ps.map (fun p => p.id)
  · rw [if_pos hmem, addOrUpdate_ids_of_mem ps cid q hq hmem]
  · rw [if_neg hmem, addOrUpdate_of_not_mem ps cid q hmem]
    simp [hq]

theorem addOrUpdate_nodup (ps : List Product) (cid : String) (q : Product) (hq : q.id = cid)
    (h : (ps.map (fun p => p.id)).Nodup) :
    ((addOrUpdate ps cid q).map (fun p => p.id)).Nodup := by
  rw [addOrUpdate_ids ps cid q hq]
  split
  · exact h
  · rename_i hmem
    rw [List.nodup_append]
    refine ⟨h, List.nodup_singleton _, ?_⟩
    intro a ha hb
    simp only [List.mem_singleton] at hb
    exact hmem (hb ▸ ha)

theorem addOrUpdate_mem (ps : List Product) (cid : String) (q : Product) :
    q ∈ addOrUpdate ps cid q := by
  induction ps with
  | nil => simp [addOrUpdate_nil]
  | cons p ps ih =>
    rw [addOrUpdate_cons]
    split
    · simp
    · simp [ih]

theorem addOrUpdate_length_of_mem (ps : List Product) (cid : String) (q : Product)
    (hq : q.id = cid) (hmem : cid ∈ ps.map (fun p => p.id)) :
    (addOrUpdate ps cid q).length = ps.length := by
  have := congrArg List.length (addOrUpdate_ids_of_mem ps cid q hq hmem)
  simpa using this

/-- Records of another id are left where they are. -/
theorem addOrUpdate_filter_ne (ps : List Product) (cid x : String) (q : Product)
    (hq : q.id = cid) (hx : cid ≠ x) :
    (addOrUpdate ps cid q).filter (fun p => p.id != x) =
      addOrUpdate (ps.filter (fun p => p.id != x)) cid q := by
  induction ps with
  | nil => simp [addOrUpdate_nil, hq, hx]
  | cons p ps ih =>
    rw [addOrUpdate_cons]
    by_cases h : p.id = cid
    · have hpx : p.id ≠ x := h ▸ hx
      simp [h, hq, hx, List.filter_cons, addOrUpdate_cons]
    · by_cases hpx : p.id = x
      · rw [if_neg h]
        simp [hpx, List.filter_cons, ih]
      · rw [if_neg h]
        simp [h, hpx, List.filter_cons, ih, addOrUpdate_cons]

/-- With distinct ids in the store, the record written is the only one of its id. -/
theorem addOrUpdate_filter_eq (ps : List Product) (cid : String) (q : Product)
    (hq : q.id = cid) (h : (ps.map (fun p => p.id)).Nodup) :
    (addOrUpdate ps cid q).filter (fun p => p.id == cid) = [q] := by
  induction ps with
  | nil => simp [addOrUpdate_nil, hq]
  | cons p ps ih =>
    rw [addOrUpdate_cons]
    simp only [List.map_cons, List.nodup_cons] at h
    by_cases hp : p.id = cid
    · have : ∀ r ∈ ps, ¬ r.id = cid := by
        intro r hr hrc
        apply h.1
        rw [hp, ← hrc]
        exact List.mem_map_of_mem _ hr
      simp only [hp, if_true, List.filter_cons, hq, beq_self_eq_true]
      simp only [List.cons.injEq, true_and, List.filter_eq_nil_iff, beq_iff_eq]
      exact this
    · simp [hp, List.filter_cons, ih h.2]

/-! ## One call of `analyzeProduct` -/

/-- A container that is already processed is skipped. -/
theorem analyzeProduct_skip_processed (self : RoposoProductAnalyzer) (env : Env) (c : Container)
    (h : c.id ∈ self.processedProducts) :
    analyzeProduct self env (some c) = (.normal, self) := by
  unfold analyzeProduct
  by_cases h0 : c.id = ""
  · simp [h0]
  · simp [h0, h]

theorem analyzeProduct_skip_no_id (self : RoposoProductAnalyzer) (env : Env) (c : Container)
    (h : c.id = "") :
    analyzeProduct self env (some c) = (.normal, self) := by
  unfold analyzeProduct
  simp [h]

/-- What one call that passes the two guards does to each field. -/
theorem analyzeProduct_fields (self : RoposoProductAnalyzer) (env : Env) (c : Container)
    (h0 : c.id ≠ "") (hp : c.id ∉ self.processedProducts) :
    (analyzeProduct self env (some c)).1 = .normal ∧
    (analyzeProduct self env (some c)).2.excellentProducts =
      (if qualifies c = true ∧ nameRaises c = false
        then addOrUpdate self.excellentProducts c.id (productOf env c)
        else self.excellentProducts) ∧
    (analyzeProduct self env (some c)).2.processedProducts = self.processedProducts ++ [c.id] ∧
    (analyzeProduct self env (some c)).2.ratingLookups = self.ratingLookups ++ [c.id] ∧
    (analyzeProduct self env (some c)).2.localStorage =
      (if qualifies c = true ∧ nameRaises c = false ∧ c.highlightProduct = .value () ∧
          env.setItem = .value ()
        then some (addOrUpdate self.excellentProducts c.id (productOf env c))
        else self.localStorage) ∧
    (analyzeProduct self env (some c)).2.badgeMessages =
      (if qualifies c = true ∧ nameRaises c = false ∧ c.highlightProduct = .value () ∧
          env.sendMessage = .value ()
        then self.badgeMessages ++
          [(addOrUpdate self.excellentProducts c.id (productOf env c)).length]
        else self.badgeMessages) := by
  have hset : setAdd self.processedProducts c.id = self.processedProducts ++ [c.id] := by
    simp [setAdd, hp]
  unfold analyzeProduct
  simp only [h0, hp, if_false]
  unfold analyzeTry qualifies nameRaises productOf displayName ratingText
  cases hr : ratingElement c with
  | raises => simp [hset]
  | value o =>
    cases o with
    | none => simp [hset]
    | some el =>
      cases ht : trimmedText el with
      | raises => simp [hset, ht]
      | value t =>
        by_cases hq : toLowerCase t = "excellent" ∨ toLowerCase t = "good"
        · cases hn : nameElement c with
          | raises => simp [hq, hset, ht]
          | value nameEl =>
            cases hpn : productName c nameEl with
            | raises => simp [hq, hset, ht, hpn]
            | value name =>
              cases hh : c.highlightProduct with
              | raises => simp [hq, hset, ht, hpn]
              | value u =>
                cases hs : env.setItem <;> cases hm : env.sendMessage <;>
                  simp [hq, hset, saveProducts, hs, hm, ht, hpn]
        · simp [hq, hset, ht]

theorem analyzeProduct_normal (self : RoposoProductAnalyzer) (env : Env)
    (container : Option Container) : (analyzeProduct self env container).1 = .normal := by
  cases container with
  | none => rfl
  | some c =>
    by_cases h0 : c.id = ""
    · rw [analyzeProduct_skip_no_id self env c h0]
    · by_cases hp : c.id ∈ self.processedProducts
      · rw [analyzeProduct_skip_processed self env c hp]
      · exact (analyzeProduct_fields self env c h0 hp).1

/-- One call leaves the store as it is or writes the product of the container. -/
theorem analyzeProduct_store_cases (self : RoposoProductAnalyzer) (env : Env)
    (container : Option Container) :
    (analyzeProduct self env container).2.excellentProducts = self.excellentProducts ∨
    ∃ c, container = some c ∧
      (analyzeProduct self env container).2.excellentProducts =
        addOrUpdate self.excellentProducts c.id (productOf env c) := by
  cases container with
  | none => exact Or.inl rfl
  | some c =>
    by_cases h0 : c.id = ""
    · rw [analyzeProduct_skip_no_id self env c h0]; exact Or.inl rfl
    · by_cases hp : c.id ∈ self.processedProducts
      · rw [analyzeProduct_skip_processed self env c hp]; exact Or.inl rfl
      · have h := (analyzeProduct_fields self env c h0 hp).2.1
        by_cases hq : qualifies c = true ∧ nameRaises c = false
        · rw [if_pos hq] at h; exact Or.inr ⟨c, rfl, h⟩
        · rw [if_neg hq] at h; exact Or.inl h

theorem analyzeProduct_scrollDriver (self : RoposoProductAnalyzer) (env : Env)
    (container : Option Container) :
    scrollDriver (analyzeProduct self env container).2 = scrollDriver self := by
  cases container with
  | none => rfl
  | some c =>
    unfold analyzeProduct
    by_cases h0 : c.id = ""
    · simp [h0]
    · by_cases hp : c.id ∈ self.processedProducts
      · simp [h0, hp]
      · simp only [h0, hp, if_false]
        unfold analyzeTry
        cases hr : ratingElement c with
        | raises => simp [scrollDriver]
        | value o =>
          cases o with
          | none => simp [scrollDriver]
          | some el =>
            cases ht : trimmedText el with
            | raises => simp [scrollDriver, ht]
            | value t =>
              by_cases hq : toLowerCase t = "excellent" ∨ toLowerCase t = "good"
              · cases hn : nameElement c with
                | raises => simp [hq, scrollDriver, ht]
                | value nameEl =>
                  cases hpn : productName c nameEl with
                  | raises => simp [hq, scrollDriver, ht, hpn]
                  | value name =>
                    cases hh : c.highlightProduct with
                    | raises => simp [hq, scrollDriver, ht, hpn]
                    | value u =>
                      cases hs : env.setItem <;> cases hm : env.sendMessage <;>
                        simp [hq, scrollDriver, saveProducts, hs, hm, ht, hpn]
              · simp [hq, scrollDriver, ht]

/-! ## Loops -/

/-- A property kept by every callback is kept by the loop. -/
theorem forEach_preserves {σ α : Type} (f : σ → α → Completion × σ) (P : σ → Prop)
    (hf : ∀ s x, P s → P (f s x).2) (xs : List α) (s : σ) (hs : P s) :
    P (forEach f s xs).2 := by
  induction xs generalizing s with
  | nil => exact hs
  | cons x xs ih =>
    unfold forEach
    have hx := hf s x hs
    cases hfx : f s x with
    | mk k s1 =>
      rw [hfx] at hx
      cases k with
      | normal => exact ih s1 hx
      | throws => exact hx

/-- A loop whose callbacks all return runs every callback and returns. -/
theorem forEach_normal {σ α : Type} (f : σ → α → Completion × σ)
    (hf : ∀ s x, (f s x).1 = .normal) (xs : List α) (s : σ) :
    forEach f s xs = (.normal, xs.foldl (fun s x => (f s x).2) s) := by
  induction xs generalizing s with
  | nil => rfl
  | cons x xs ih =>
    unfold forEach
    have hx := hf s x
    cases hfx : f s x with
    | mk k s1 =>
      rw [hfx] at hx
      simp only at hx
      subst hx
      simp only [List.foldl_cons, hfx]
      exact ih s1

theorem updateBadge_scrollDriver (self : RoposoProductAnalyzer) (env : Env) :
    scrollDriver (updateBadge self env).2 = scrollDriver self := by
  unfold updateBadge
  cases env.sendMessage <;> rfl

theorem updateBadge_store (self : RoposoProductAnalyzer) (env : Env) :
    (updateBadge self env).2.excellentProducts = self.excellentProducts := by
  unfold updateBadge
  cases env.sendMessage <;> rfl

theorem updateBadge_processed (self : RoposoProductAnalyzer) (env : Env) :
    (updateBadge self env).2.processedProducts = self.processedProducts := by
  unfold updateBadge
  cases env.sendMessage <;> rfl

theorem updateBadge_ratingLookups (self : RoposoProductAnalyzer) (env : Env) :
    (updateBadge self env).2.ratingLookups = self.ratingLookups := by
  unfold updateBadge
  cases env.sendMessage <;> rfl

/-! ## Properties kept by the scanning methods -/

theorem scanExistingProducts_preserves (P : RoposoProductAnalyzer → Prop)
    (hA : ∀ s env c, P s → P (analyzeProduct s env c).2)
    (hB : ∀ s env, P s → P (updateBadge s env).2)
    (self : RoposoProductAnalyzer) (document : List (Env × Container)) (env : Env)
    (h : P self) : P (scanExistingProducts self document env).2 := by
  unfold scanExistingProducts
  have hloop := forEach_preserves
    (fun self (e : Env × Container) => analyzeProduct self e.1 (some e.2)) P
    (fun s e hs => hA s e.1 (some e.2) hs) (querySelectorAll document) self h
  simp only
  cases hfe : forEach (fun self (e : Env × Container) => analyzeProduct self e.1 (some e.2))
      self (querySelectorAll document) with
  | mk k s1 =>
    rw [hfe] at hloop
    cases k with
    | normal => exact hB s1 env hloop
    | throws => exact hloop

theorem observeNode_preserves (P : RoposoProductAnalyzer → Prop)
    (hA : ∀ s env c, P s → P (analyzeProduct s env c).2)
    (st : Bool × RoposoProductAnalyzer) (node : Node) (h : P st.2) :
    P (observeNode st node).2.2 := by
  unfold observeNode
  by_cases hn : node.nodeType = 1
  · simp only [hn, if_true]
    have hown : ∀ own : Completion × (Bool × RoposoProductAnalyzer),
        own = (if node.self.2.id ≠ "" ∧ startsWith node.self.2.id productItemIdStart = true then
          match analyzeProduct st.2 node.self.1 (some node.self.2) with
          | (.normal, self) => (.normal, (true, self))
          | (.throws, self) => (.throws, (st.1, self))
        else (.normal, st)) → P own.2.2 := by
      intro own ho
      subst ho
      split
      · have := hA st.2 node.self.1 (some node.self.2) h
        cases hr : analyzeProduct st.2 node.self.1 (some node.self.2) with
        | mk k s1 =>
          rw [hr] at this
          cases k <;> exact this
      · exact h
    generalize (if node.self.2.id ≠ "" ∧ startsWith node.self.2.id productItemIdStart = true then
          match analyzeProduct st.2 node.self.1 (some node.self.2) with
          | (.normal, self) => (Completion.normal, (true, self))
          | (.throws, self) => (Completion.throws, (st.1, self))
        else (Completion.normal, st)) = own at hown
    have hown := hown own rfl
    rcases own with ⟨k, st1⟩
    cases k with
    | throws => exact hown
    | normal =>
      simp only
      apply forEach_preserves _ (fun st : Bool × RoposoProductAnalyzer => P st.2)
      · intro s e hs
        have := hA s.2 e.1 (some e.2) hs
        cases hr : analyzeProduct s.2 e.1 (some e.2) with
        | mk k s1 =>
          rw [hr] at this
          cases k <;> exact this
      · exact hown
  · simp only [hn, if_false]
    exact h

theorem mutationCallback_preserves (P : RoposoProductAnalyzer → Prop)
    (hA : ∀ s env c, P s → P (analyzeProduct s env c).2)
    (hB : ∀ s env, P s → P (updateBadge s env).2)
    (self : RoposoProductAnalyzer) (mutations : List MutationRecord) (env : Env)
    (h : P self) : P (mutationCallback self mutations env).2 := by
  unfold mutationCallback
  have hloop : P (observeMutations self mutations).2.2 := by
    unfold observeMutations
    apply forEach_preserves _ (fun st : Bool × RoposoProductAnalyzer => P st.2)
    · intro s m hs
      apply forEach_preserves _ (fun st : Bool × RoposoProductAnalyzer => P st.2)
      · intro s1 n hs1
        exact observeNode_preserves P hA s1 n hs1
      · exact hs
    · exact h
  rcases hobs : observeMutations self mutations with ⟨k, found, s1⟩
  rw [hobs] at hloop
  cases k with
  | throws => exact hloop
  | normal =>
    simp only
    cases found with
    | true => exact hB s1 env hloop
    | false => exact hloop

/-! ## The scroll driver leaves the scan engine alone -/

theorem autoScroll_scanEngine (self : RoposoProductAnalyzer) :
    scanEngine (autoScroll self) = scanEngine self := by
  unfold autoScroll
  cases self.autoScrollEnabled
  · rfl
  · simp only [Bool.not_true, Bool.false_eq_true, if_false]
    split <;> rfl

theorem startAutoScroll_scanEngine (self : RoposoProductAnalyzer) :
    scanEngine (startAutoScroll self) = scanEngine self := by
  unfold startAutoScroll
  split
  · rfl
  · rw [autoScroll_scanEngine]; rfl

theorem stopAutoScroll_scanEngine (self : RoposoProductAnalyzer) :
    scanEngine (stopAutoScroll self) = scanEngine self := by
  unfold stopAutoScroll
  cases self.scrollTimeout with
  | none => rfl
  | some id =>
    simp only
    split <;> rfl

theorem timerFires_scanEngine (self : RoposoProductAnalyzer) (id : Nat) :
    scanEngine (timerFires self id) = scanEngine self := by
  unfold timerFires
  split
  · rw [autoScroll_scanEngine]; rfl
  · rfl

theorem analyzeProduct_nodup (self : RoposoProductAnalyzer) (env : Env)
    (container : Option Container)
    (h : (self.excellentProducts.map (fun p => p.id)).Nodup) :
    ((analyzeProduct self env container).2.excellentProducts.map (fun p => p.id)).Nodup := by
  rcases analyzeProduct_store_cases self env container with hs | ⟨c, _, hs⟩
  · rw [hs]; exact h
  · rw [hs]; exact addOrUpdate_nodup _ _ _ rfl h

theorem step_nodup (self : RoposoProductAnalyzer) (e : Event) (he : e.hydrates = false)
    (h : (self.excellentProducts.map (fun p => p.id)).Nodup) :
    ((step self e).excellentProducts.map (fun p => p.id)).Nodup := by
  have hB : ∀ (s : RoposoProductAnalyzer) (env : Env),
      (s.excellentProducts.map (fun p => p.id)).Nodup →
      ((updateBadge s env).2.excellentProducts.map (fun p => p.id)).Nodup := by
    intro s env hs
    rw [updateBadge_store]; exact hs
  cases e with
  | analyzeProduct env container => exact analyzeProduct_nodup self env container h
  | scanExistingProducts document env =>
    exact scanExistingProducts_preserves
      (fun s => (s.excellentProducts.map (fun p => p.id)).Nodup)
      analyzeProduct_nodup hB self document env h
  | rescanAllProducts document env =>
    exact scanExistingProducts_preserves
      (fun s => (s.excellentProducts.map (fun p => p.id)).Nodup)
      analyzeProduct_nodup hB { self with processedProducts := [] } document env h
  | mutations batch env =>
    exact mutationCallback_preserves
      (fun s => (s.excellentProducts.map (fun p => p.id)).Nodup)
      analyzeProduct_nodup hB self batch env h
  | loadExistingProducts getItem => simp [Event.hydrates] at he
  | clearAllData removeItem env =>
    simp only [step, clearAllData]
    cases removeItem with
    | raises => simp
    | value u => simp [updateBadge_store]
  | startAutoScroll =>
    have := congrArg Prod.fst (startAutoScroll_scanEngine self)
    simp only [scanEngine] at this
    simp only [step, this]; exact h
  | stopAutoScroll =>
    have := congrArg Prod.fst (stopAutoScroll_scanEngine self)
    simp only [scanEngine] at this
    simp only [step, this]; exact h
  | timerFires id =>
    have := congrArg Prod.fst (timerFires_scanEngine self id)
    simp only [scanEngine] at this
    simp only [step, this]; exact h
  | page y sh ih => exact h

/-! ## The store after a run and after one scan -/

/-- C1. Uniqueness invariant: if the ids of the records in `excellentProducts`
are pairwise distinct at the start, they are pairwise distinct after every
finite sequence of events that does not reload the store from `localStorage`:
calls of `analyzeProduct`, `scanExistingProducts` and `rescanAllProducts` on
arbitrary containers, observer batches, `clearAllData`, and the scroll driver. -/
theorem C1_store_ids_pairwise_distinct (self : RoposoProductAnalyzer) (events : List Event)
    (hstore : (self.excellentProducts.map (fun p => p.id)).Nodup)
    (hevents : ∀ e ∈ events, e.hydrates = false) :
    ((run self events).excellentProducts.map (fun p => p.id)).Nodup := by
  induction events generalizing self with
  | nil => exact hstore
  | cons e es ih =>
    simp only [run, List.foldl_cons]
    apply ih
    · exact step_nodup self e (hevents e (List.mem_cons_self _ _)) hstore
    · intro e1 he1
      exact hevents e1 (List.mem_cons_of_mem _ he1)

/-- Witness of C1: the card `category-page-product-item-A` is analysed as
`excellent`; then a page holding the same card as `good` and the card
`category-page-product-item-B` as `Excellent` is rescanned, which writes over
the record of the first and adds the second; the ids of the store are still
pairwise distinct. -/
theorem C1_store_ids_pairwise_distinct_witness :
    ((new 0 0 0).excellentProducts.map (fun p => p.id)).Nodup ∧
    (∀ e ∈ [Event.analyzeProduct (calmEnv 1)
          (some (card "category-page-product-item-A" (some "excellent") none)),
        Event.rescanAllProducts
          [(calmEnv 2, card "category-page-product-item-A" (some "good") none),
            (calmEnv 3, card "category-page-product-item-B" (some "Excellent") none)]
          (calmEnv 4)], e.hydrates = false) ∧
    ((run (new 0 0 0)
      [Event.analyzeProduct (calmEnv 1)
          (some (card "category-page-product-item-A" (some "excellent") none)),
        Event.rescanAllProducts
          [(calmEnv 2, card "category-page-product-item-A" (some "good") none),
            (calmEnv 3, card "category-page-product-item-B" (some "Excellent") none)]
          (calmEnv 4)]).excellentProducts.map (fun p => p.id)).Nodup :=
  ⟨by simp [new], by simp [Event.hydrates],
    C1_store_ids_pairwise_distinct _ _ (by simp [new]) (by simp [Event.hydrates])⟩

/-- Scanning containers of distinct, non-empty ids that are neither processed
nor in the store appends, in order, the products of those that qualify and
whose name lookup does not raise, and marks every one of them processed. -/
theorem forEach_analyzeProduct_fresh (cs : List (Env × Container))
    (self : RoposoProductAnalyzer)
    (hne : ∀ e ∈ cs, e.2.id ≠ "")
    (hnd : (cs.map (fun e => e.2.id)).Nodup)
    (hproc : ∀ e ∈ cs, e.2.id ∉ self.processedProducts)
    (hstore : ∀ e ∈ cs, e.2.id ∉ self.excellentProducts.map (fun p => p.id)) :
    (forEach (fun self (e : Env × Container) => analyzeProduct self e.1 (some e.2))
        self cs).1 = .normal ∧
    (forEach (fun self (e : Env × Container) => analyzeProduct self e.1 (some e.2))
        self cs).2.excellentProducts =
      self.excellentProducts ++
        (cs.filter (fun e => qualifies e.2 && !nameRaises e.2)).map
          (fun e => productOf e.1 e.2) ∧
    (forEach (fun self (e : Env × Container) => analyzeProduct self e.1 (some e.2))
        self cs).2.processedProducts =
      self.processedProducts ++ cs.map (fun e => e.2.id) := by
  induction cs generalizing self with
  | nil => simp [forEach]
  | cons e es ih =>
    have he0 : e.2.id ≠ "" := hne e (List.mem_cons_self _ _)
    have hep : e.2.id ∉ self.processedProducts := hproc e (List.mem_cons_self _ _)
    have hes : e.2.id ∉ self.excellentProducts.map (fun p => p.id) :=
      hstore e (List.mem_cons_self _ _)
    obtain ⟨hk, hst, hpr, -⟩ := analyzeProduct_fields self e.1 e.2 he0 hep
    simp only [List.map_cons, List.nodup_cons] at hnd
    unfold forEach
    rcases hr : analyzeProduct self e.1 (some e.2) with ⟨k, s1⟩
    rw [hr] at hk hst hpr
    simp only at hk hst hpr
    subst hk
    simp only
    have hids : s1.excellentProducts.map (fun p => p.id) =
        self.excellentProducts.map (fun p => p.id) ∨
        s1.excellentProducts.map (fun p => p.id) =
        self.excellentProducts.map (fun p => p.id) ++ [e.2.id] := by
      rw [hst]
      split
      · right
        rw [addOrUpdate_of_not_mem _ _ _ hes]
        simp [productOf]
      · left; rfl
    have h1 := ih s1 (fun x hx => hne x (List.mem_cons_of_mem _ hx)) hnd.2
      (by
        intro x hx
        rw [hpr]
        simp only [List.mem_append, List.mem_singleton, not_or]
        refine ⟨hproc x (List.mem_cons_of_mem _ hx), ?_⟩
        intro hxe
        exact hnd.1 (hxe ▸ List.mem_map_of_mem (fun e => e.2.id) hx))
      (by
        intro x hx
        have hx0 := hstore x (List.mem_cons_of_mem _ hx)
        rcases hids with hi | hi
        · rw [hi]; exact hx0
        · rw [hi]
          simp only [List.mem_append, List.mem_singleton, not_or]
          refine ⟨hx0, ?_⟩
          intro hxe
          exact hnd.1 (hxe ▸ List.mem_map_of_mem (fun e => e.2.id) hx))
    refine ⟨h1.1, ?_, ?_⟩
    · rw [h1.2.1, hst]
      by_cases hq : qualifies e.2 = true ∧ nameRaises e.2 = false
      · rw [if_pos hq, addOrUpdate_of_not_mem _ _ _ hes]
        simp [List.filter_cons, hq.1, hq.2]
      · rw [if_neg hq]
        have : (qualifies e.2 && !nameRaises e.2) = false := by
          cases h1 : qualifies e.2 <;> cases h2 : nameRaises e.2 <;> simp_all
        simp [List.filter_cons, this]
    · rw [h1.2.2, hpr]
      simp

/-- C2. From an analyzer whose store and set of processed ids are empty, one
scan in order of containers with pairwise distinct, non-empty ids, none of
whose name lookups raises, returns and leaves in `excellentProducts` exactly
the products of the containers whose normalised label is `excellent` or
`good`, in encounter order; the count is the number of such containers, and
`processedProducts` holds the ids of all the containers scanned, the rejected
ones included.  The same holds of `scanExistingProducts` for the product
containers of the page. -/
theorem C2_single_scan (self : RoposoProductAnalyzer) (cs : List (Env × Container))
    (hstore : self.excellentProducts = []) (hprocessed : self.processedProducts = [])
    (hids : (cs.map (fun e => e.2.id)).Nodup) (hnonempty : ∀ e ∈ cs, e.2.id ≠ "")
    (hname : ∀ e ∈ cs, nameRaises e.2 = false) :
    (forEach (fun self (e : Env × Container) => analyzeProduct self e.1 (some e.2))
        self cs).1 = .normal ∧
    (forEach (fun self (e : Env × Container) => analyzeProduct self e.1 (some e.2))
        self cs).2.excellentProducts =
      (cs.filter (fun e => qualifies e.2)).map (fun e => productOf e.1 e.2) ∧
    (forEach (fun self (e : Env × Container) => analyzeProduct self e.1 (some e.2))
        self cs).2.excellentProducts.length = cs.countP (fun e => qualifies e.2) ∧
    (forEach (fun self (e : Env × Container) => analyzeProduct self e.1 (some e.2))
        self cs).2.processedProducts = cs.map (fun e => e.2.id) ∧
    (∀ env : Env,
      (scanExistingProducts self cs env).2.excellentProducts =
        ((querySelectorAll cs).filter (fun e => qualifies e.2)).map
          (fun e => productOf e.1 e.2) ∧
      (scanExistingProducts self cs env).2.processedProducts =
        (querySelectorAll cs).map (fun e => e.2.id)) := by
  have hmain : ∀ ds : List (Env × Container), (ds.map (fun e => e.2.id)).Nodup →
      (∀ e ∈ ds, e.2.id ≠ "") → (∀ e ∈ ds, nameRaises e.2 = false) →
      (forEach (fun self (e : Env × Container) => analyzeProduct self e.1 (some e.2))
          self ds).1 = .normal ∧
      (forEach (fun self (e : Env × Container) => analyzeProduct self e.1 (some e.2))
          self ds).2.excellentProducts =
        (ds.filter (fun e => qualifies e.2)).map (fun e => productOf e.1 e.2) ∧
      (forEach (fun self (e : Env × Container) => analyzeProduct self e.1 (some e.2))
          self ds).2.processedProducts = ds.map (fun e => e.2.id) := by
    intro ds hd hn hnm
    obtain ⟨hk, hst, hpr⟩ := forEach_analyzeProduct_fresh ds self hn hd
      (by intro e _; rw [hprocessed]; exact List.not_mem_nil _)
      (by intro e _; rw [hstore]; exact List.not_mem_nil _)
    have hfilter : ds.filter (fun e => qualifies e.2 && !nameRaises e.2) =
        ds.filter (fun e => qualifies e.2) := by
      apply List.filter_congr
      intro e he
      simp [hnm e he]
    rw [hfilter, hstore, List.nil_append] at hst
    rw [hprocessed, List.nil_append] at hpr
    exact ⟨hk, hst, hpr⟩
  obtain ⟨hk, hst, hpr⟩ := hmain cs hids hnonempty hname
  refine ⟨hk, hst, ?_, hpr, ?_⟩
  · rw [hst, List.length_map, List.countP_eq_length_filter]
  · intro env
    have hsub : (querySelectorAll cs).Sublist cs := List.filter_sublist _
    obtain ⟨hk1, hst1, hpr1⟩ := hmain (querySelectorAll cs)
      (List.Nodup.sublist (List.Sublist.map _ hsub) hids)
      (fun e he => hnonempty e (hsub.subset he))
      (fun e he => hname e (hsub.subset he))
    have hfe := forEach_normal
      (fun self (e : Env × Container) => analyzeProduct self e.1 (some e.2))
      (fun s e => analyzeProduct_normal s e.1 (some e.2)) (querySelectorAll cs) self
    unfold scanExistingProducts
    rw [hfe] at hst1 hpr1
    simp only [hfe, updateBadge_store, updateBadge_processed]
    exact ⟨hst1, hpr1⟩

/-- Witness of C2: `[A(excellent), B(poor), C(good)]` scanned once from the
empty analyzer gives the store `{A, C}`, count 2, and the processed ids
`{A, B, C}`. -/
theorem C2_single_scan_witness :
    (new 0 0 0).excellentProducts = [] ∧ (new 0 0 0).processedProducts = [] ∧
    (([(calmEnv 1, card "A" (some "excellent") none), (calmEnv 2, card "B" (some "poor") none),
        (calmEnv 3, card "C" (some "good") none)]).map (fun e => e.2.id)).Nodup ∧
    (forEach (fun self (e : Env × Container) => analyzeProduct self e.1 (some e.2)) (new 0 0 0)
      [(calmEnv 1, card "A" (some "excellent") none), (calmEnv 2, card "B" (some "poor") none),
        (calmEnv 3, card "C" (some "good") none)]).2.excellentProducts =
      ([(calmEnv 1, card "A" (some "excellent") none), (calmEnv 2, card "B" (some "poor") none),
        (calmEnv 3, card "C" (some "good") none)].filter (fun e => qualifies e.2)).map
        (fun e => productOf e.1 e.2) ∧
    (forEach (fun self (e : Env × Container) => analyzeProduct self e.1 (some e.2)) (new 0 0 0)
      [(calmEnv 1, card "A" (some "excellent") none), (calmEnv 2, card "B" (some "poor") none),
        (calmEnv 3, card "C" (some "good") none)]).2.excellentProducts.map (fun p => p.id) =
      ["A", "C"] ∧
    (forEach (fun self (e : Env × Container) => analyzeProduct self e.1 (some e.2)) (new 0 0 0)
      [(calmEnv 1, card "A" (some "excellent") none), (calmEnv 2, card "B" (some "poor") none),
        (calmEnv 3, card "C" (some "good") none)]).2.excellentProducts.length = 2 ∧
    (forEach (fun self (e : Env × Container) => analyzeProduct self e.1 (some e.2)) (new 0 0 0)
      [(calmEnv 1, card "A" (some "excellent") none), (calmEnv 2, card "B" (some "poor") none),
        (calmEnv 3, card "C" (some "good") none)]).2.processedProducts = ["A", "B", "C"] :=
  ⟨rfl, rfl, by decide,
    (C2_single_scan (new 0 0 0)
      [(calmEnv 1, card "A" (some "excellent") none), (calmEnv 2, card "B" (some "poor") none),
        (calmEnv 3, card "C" (some "good") none)] rfl rfl (by decide) (by decide)
      (by decide)).2.1,
    by decide, by decide, by decide⟩

/-- C3. Acceptance rule.  For a container with a non-empty id that is not yet
processed and whose name lookup does not raise, `analyzeProduct` returns and:
if the rating text (trimmed, lower-cased) is `excellent` or `good`, the store
becomes the old store with the product of the container added or written over
the record of that id, and the stored rating is the normalised text; in every
other case (another text, no rating element, a rating lookup that raises) the
store is unchanged.  Hence from a store without that id the store afterwards
has a record of that id iff the rating text is `excellent` or `good`.  The
texts `Excellent`, ` good ` and `GOOD` normalise to accepted values, while
`fair`, `poor` and a missing rating element are rejected. -/
theorem C3_acceptance_rule (self : RoposoProductAnalyzer) (env : Env) (c : Container)
    (hid : c.id ≠ "") (hnew : c.id ∉ self.processedProducts) (hname : nameRaises c = false) :
    (analyzeProduct self env (some c)).1 = .normal ∧
    ((ratingText c = some "excellent" ∨ ratingText c = some "good") →
      (analyzeProduct self env (some c)).2.excellentProducts =
        addOrUpdate self.excellentProducts c.id (productOf env c) ∧
      productOf env c ∈ (analyzeProduct self env (some c)).2.excellentProducts ∧
      some (productOf env c).rating = ratingText c) ∧
    (¬ (ratingText c = some "excellent" ∨ ratingText c = some "good") →
      (analyzeProduct self env (some c)).2.excellentProducts = self.excellentProducts) ∧
    (c.id ∉ self.excellentProducts.map (fun p => p.id) →
      ((∃ p ∈ (analyzeProduct self env (some c)).2.excellentProducts, p.id = c.id) ↔
        (ratingText c = some "excellent" ∨ ratingText c = some "good"))) ∧
    (∀ id name, ratingText (card id (some "Excellent") name) = some "excellent") ∧
    (∀ id name, ratingText (card id (some " good ") name) = some "good") ∧
    (∀ id name, ratingText (card id (some "GOOD") name) = some "good") ∧
    (∀ id name, qualifies (card id (some "fair") name) = false) ∧
    (∀ id name, qualifies (card id (some "poor") name) = false) ∧
    (∀ id name, qualifies (card id none name) = false) := by
  obtain ⟨hk, hst, -⟩ := analyzeProduct_fields self env c hid hnew
  have hq : qualifies c = true ↔ (ratingText c = some "excellent" ∨ ratingText c = some "good") := by
    simp [qualifies]
  refine ⟨hk, ?_, ?_, ?_, fun _ _ => rfl, fun _ _ => rfl, fun _ _ => rfl, fun _ _ => rfl,
    fun _ _ => rfl, fun _ _ => rfl⟩
  · intro h
    have hst1 : (analyzeProduct self env (some c)).2.excellentProducts =
        addOrUpdate self.excellentProducts c.id (productOf env c) := by
      rw [hst, if_pos ⟨hq.mpr h, hname⟩]
    refine ⟨hst1, ?_, ?_⟩
    · rw [hst1]; exact addOrUpdate_mem _ _ _
    · rcases h with h | h <;> simp [productOf, h]
  · intro h
    rw [hst, if_neg]
    intro hc
    exact h (hq.mp hc.1)
  · intro hfresh
    constructor
    · rintro ⟨p, hp, hpid⟩
      by_contra hn
      rw [hst, if_neg (fun hc => hn (hq.mp hc.1))] at hp
      exact hfresh (hpid ▸ List.mem_map_of_mem (fun p => p.id) hp)
    · intro h
      refine ⟨productOf env c, ?_, rfl⟩
      rw [hst, if_pos ⟨hq.mpr h, hname⟩]
      exact addOrUpdate_mem _ _ _

/-- Witness of C3: a card labelled ` good ` analysed by a fresh analyzer. -/
theorem C3_acceptance_rule_witness :
    (card "A" (some " good ") none).id ≠ "" ∧
    (card "A" (some " good ") none).id ∉ (new 0 0 0).processedProducts ∧
    nameRaises (card "A" (some " good ") none) = false ∧
    (analyzeProduct (new 0 0 0) (calmEnv 5) (some (card "A" (some " good ") none))).2.excellentProducts
      = [{ id := "A", name := "Product A", rating := "good", timestamp := 5,
           url := "https://app.roposoclout.com/marketplace" }] ∧
    ((∃ p ∈ (analyzeProduct (new 0 0 0) (calmEnv 5)
        (some (card "A" (some " good ") none))).2.excellentProducts,
        p.id = (card "A" (some " good ") none).id) ↔
      (ratingText (card "A" (some " good ") none) = some "excellent" ∨
        ratingText (card "A" (some " good ") none) = some "good")) :=
  ⟨by decide, by decide, by decide, by decide,
    (C3_acceptance_rule (new 0 0 0) (calmEnv 5) (card "A" (some " good ") none)
      (by decide) (by decide) (by decide)).2.2.2.1 (by decide)⟩

/-! ## Scanning again -/

/-- A loop over containers that are all processed changes nothing. -/
theorem forEach_analyzeProduct_processed (cs : List (Env × Container))
    (self : RoposoProductAnalyzer) (h : ∀ e ∈ cs, e.2.id ∈ self.processedProducts) :
    forEach (fun self (e : Env × Container) => analyzeProduct self e.1 (some e.2)) self cs =
      (.normal, self) := by
  induction cs with
  | nil => rfl
  | cons e es ih =>
    unfold forEach
    simp only [analyzeProduct_skip_processed self e.1 e.2 (h e (List.mem_cons_self _ _))]
    exact ih (fun x hx => h x (List.mem_cons_of_mem _ hx))

/-- A loop over unprocessed containers of distinct, non-empty ids looks up the
rating of each and marks each processed. -/
theorem forEach_analyzeProduct_lookups (cs : List (Env × Container))
    (self : RoposoProductAnalyzer)
    (hne : ∀ e ∈ cs, e.2.id ≠ "")
    (hnd : (cs.map (fun e => e.2.id)).Nodup)
    (hproc : ∀ e ∈ cs, e.2.id ∉ self.processedProducts) :
    (forEach (fun self (e : Env × Container) => analyzeProduct self e.1 (some e.2))
        self cs).2.ratingLookups = self.ratingLookups ++ cs.map (fun e => e.2.id) ∧
    (forEach (fun self (e : Env × Container) => analyzeProduct self e.1 (some e.2))
        self cs).2.processedProducts = self.processedProducts ++ cs.map (fun e => e.2.id) := by
  induction cs generalizing self with
  | nil => simp [forEach]
  | cons e es ih =>
    have he0 : e.2.id ≠ "" := hne e (List.mem_cons_self _ _)
    have hep : e.2.id ∉ self.processedProducts := hproc e (List.mem_cons_self _ _)
    obtain ⟨hk, -, hpr, hlk, -⟩ := analyzeProduct_fields self e.1 e.2 he0 hep
    simp only [List.map_cons, List.nodup_cons] at hnd
    unfold forEach
    rcases hr : analyzeProduct self e.1 (some e.2) with ⟨k, s1⟩
    rw [hr] at hk hpr hlk
    simp only at hk hpr hlk
    subst hk
    simp only
    have h1 := ih s1 (fun x hx => hne x (List.mem_cons_of_mem _ hx)) hnd.2
      (by
        intro x hx
        rw [hpr]
        simp only [List.mem_append, List.mem_singleton, not_or]
        refine ⟨hproc x (List.mem_cons_of_mem _ hx), ?_⟩
        intro hxe
        exact hnd.1 (hxe ▸ List.mem_map_of_mem (fun e => e.2.id) hx))
    rw [h1.1, h1.2, hlk, hpr]
    simp

/-- A loop over containers whose accepted members already have a record keeps
the ids of the store, in their order. -/
theorem forEach_analyzeProduct_ids (cs : List (Env × Container))
    (self : RoposoProductAnalyzer)
    (h : ∀ e ∈ cs, qualifies e.2 = true → e.2.id ∈ self.excellentProducts.map (fun p => p.id)) :
    (forEach (fun self (e : Env × Container) => analyzeProduct self e.1 (some e.2))
        self cs).2.excellentProducts.map (fun p => p.id) =
      self.excellentProducts.map (fun p => p.id) := by
  induction cs generalizing self with
  | nil => rfl
  | cons e es ih =>
    have hstep : (analyzeProduct self e.1 (some e.2)).2.excellentProducts.map (fun p => p.id) =
        self.excellentProducts.map (fun p => p.id) := by
      by_cases h0 : e.2.id = ""
      · rw [analyzeProduct_skip_no_id self e.1 e.2 h0]
      · by_cases hp : e.2.id ∈ self.processedProducts
        · rw [analyzeProduct_skip_processed self e.1 e.2 hp]
        · rw [(analyzeProduct_fields self e.1 e.2 h0 hp).2.1]
          split
          · rename_i hq
            exact addOrUpdate_ids_of_mem _ _ _ rfl (h e (List.mem_cons_self _ _) hq.1)
          · rfl
    have hk := analyzeProduct_normal self e.1 (some e.2)
    unfold forEach
    rcases hr : analyzeProduct self e.1 (some e.2) with ⟨k, s1⟩
    rw [hr] at hk hstep
    simp only at hk hstep
    subst hk
    simp only
    rw [ih s1 (by intro x hx hq; rw [hstep]; exact h x (List.mem_cons_of_mem _ hx) hq), hstep]

theorem startsWith_ne_empty (s : String) (h : startsWith s productItemIdStart = true) :
    s ≠ "" := by
  intro hs
  subst hs
  revert h
  decide

theorem querySelectorAll_ne_empty (document : List (Env × Container)) :
    ∀ e ∈ querySelectorAll document, e.2.id ≠ "" := by
  intro e he
  unfold querySelectorAll at he
  rw [List.mem_filter] at he
  exact startsWith_ne_empty _ he.2

/-- C4, as stated, fails: after one scan of a page holding the card `A`
(`excellent`), `A` is in `processedProducts`; `rescanAllProducts` over the same
page then looks up the rating of `A` again and replaces its record by one with
the new timestamp. -/
theorem C4_rescan_counterexample :
    "category-page-product-item-A" ∈
      (scanExistingProducts (new 0 0 0)
        [(calmEnv 1, card "category-page-product-item-A" (some "excellent") none)]
        (calmEnv 2)).2.processedProducts ∧
    (rescanAllProducts
        (scanExistingProducts (new 0 0 0)
          [(calmEnv 1, card "category-page-product-item-A" (some "excellent") none)]
          (calmEnv 2)).2
        [(calmEnv 3, card "category-page-product-item-A" (some "excellent") none)]
        (calmEnv 4)).2.excellentProducts ≠
      (scanExistingProducts (new 0 0 0)
        [(calmEnv 1, card "category-page-product-item-A" (some "excellent") none)]
        (calmEnv 2)).2.excellentProducts ∧
    (scanExistingProducts (new 0 0 0)
        [(calmEnv 1, card "category-page-product-item-A" (some "excellent") none)]
        (calmEnv 2)).2.ratingLookups = ["category-page-product-item-A"] ∧
    (rescanAllProducts
        (scanExistingProducts (new 0 0 0)
          [(calmEnv 1, card "category-page-product-item-A" (some "excellent") none)]
          (calmEnv 2)).2
        [(calmEnv 3, card "category-page-product-item-A" (some "excellent") none)]
        (calmEnv 4)).2.ratingLookups =
      ["category-page-product-item-A", "category-page-product-item-A"] := by
  decide

/-! ## The record of one id through a scan -/

theorem addOrUpdate_filter_other (ps : List Product) (cid x : String) (q : Product)
    (hq : q.id = cid) (hx : cid ≠ x) :
    (addOrUpdate ps cid q).filter (fun p => p.id == x) = ps.filter (fun p => p.id == x) := by
  induction ps with
  | nil => simp [addOrUpdate_nil, hq, hx]
  | cons p ps ih =>
    rw [addOrUpdate_cons]
    by_cases h : p.id = cid
    · have hpx : p.id ≠ x := h ▸ hx
      rw [if_pos h]
      simp [hq, hx, hpx, List.filter_cons]
    · rw [if_neg h]
      simp [List.filter_cons, ih]

/-- A call on a container of another id leaves the records of `x` as they are. -/
theorem analyzeProduct_filter_other (self : RoposoProductAnalyzer) (env : Env) (c : Container)
    (x : String) (hx : c.id ≠ x) :
    (analyzeProduct self env (some c)).2.excellentProducts.filter (fun p => p.id == x) =
      self.excellentProducts.filter (fun p => p.id == x) := by
  rcases analyzeProduct_store_cases self env (some c) with hs | ⟨c1, hc, hs⟩
  · rw [hs]
  · cases hc
    rw [hs]
    exact addOrUpdate_filter_other self.excellentProducts c.id x (productOf env c) rfl hx

/-- A call adds at most the id of its container to `processedProducts`. -/
theorem analyzeProduct_processed_cases (self : RoposoProductAnalyzer) (env : Env)
    (c : Container) :
    (analyzeProduct self env (some c)).2.processedProducts = self.processedProducts ∨
    (analyzeProduct self env (some c)).2.processedProducts = self.processedProducts ++ [c.id] := by
  by_cases h0 : c.id = ""
  · rw [analyzeProduct_skip_no_id self env c h0]; exact Or.inl rfl
  · by_cases hp : c.id ∈ self.processedProducts
    · rw [analyzeProduct_skip_processed self env c hp]; exact Or.inl rfl
    · exact Or.inr (analyzeProduct_fields self env c h0 hp).2.2.1

theorem forEach_analyzeProduct_filter_other (cs : List (Env × Container))
    (self : RoposoProductAnalyzer) (x : String) (hx : ∀ e ∈ cs, e.2.id ≠ x) :
    (forEach (fun self (e : Env × Container) => analyzeProduct self e.1 (some e.2))
        self cs).2.excellentProducts.filter (fun p => p.id == x) =
      self.excellentProducts.filter (fun p => p.id == x) := by
  induction cs generalizing self with
  | nil => rfl
  | cons e es ih =>
    have hk := analyzeProduct_normal self e.1 (some e.2)
    have hf := analyzeProduct_filter_other self e.1 e.2 x (hx e (List.mem_cons_self _ _))
    unfold forEach
    rcases hr : analyzeProduct self e.1 (some e.2) with ⟨k, s1⟩
    rw [hr] at hk hf
    simp only at hk hf
    subst hk
    simp only
    rw [ih s1 (fun y hy => hx y (List.mem_cons_of_mem _ hy)), hf]

/-- In a scan of containers of distinct ids, an accepted container that is not
yet processed ends as the one record of its id. -/
theorem forEach_analyzeProduct_record (cs : List (Env × Container))
    (self : RoposoProductAnalyzer) (e : Env × Container)
    (hmem : e ∈ cs) (hnd : (cs.map (fun e => e.2.id)).Nodup)
    (hid : e.2.id ≠ "") (hproc : e.2.id ∉ self.processedProducts)
    (hstore : (self.excellentProducts.map (fun p => p.id)).Nodup)
    (hq : qualifies e.2 = true) (hname : nameRaises e.2 = false) :
    (forEach (fun self (e : Env × Container) => analyzeProduct self e.1 (some e.2))
        self cs).2.excellentProducts.filter (fun p => p.id == e.2.id) =
      [productOf e.1 e.2] := by
  induction cs generalizing self with
  | nil => simp at hmem
  | cons h hs ih =>
    simp only [List.map_cons, List.nodup_cons] at hnd
    have hk := analyzeProduct_normal self h.1 (some h.2)
    unfold forEach
    rcases List.mem_cons.mp hmem with heq | htail
    · subst heq
      have hst := (analyzeProduct_fields self e.1 e.2 hid hproc).2.1
      rw [if_pos ⟨hq, hname⟩] at hst
      rcases hr : analyzeProduct self e.1 (some e.2) with ⟨k, s1⟩
      rw [hr] at hk hst
      simp only at hk hst
      subst hk
      simp only
      rw [forEach_analyzeProduct_filter_other hs s1 e.2.id, hst]
      · exact addOrUpdate_filter_eq _ _ _ rfl hstore
      · intro y hy hye
        exact hnd.1 (hye ▸ List.mem_map_of_mem (fun e => e.2.id) hy)
    · have hne : h.2.id ≠ e.2.id := by
        intro hc
        exact hnd.1 (hc ▸ List.mem_map_of_mem (fun e => e.2.id) htail)
      have hnd1 := analyzeProduct_nodup self h.1 (some h.2) hstore
      have hp1 := analyzeProduct_processed_cases self h.1 h.2
      rcases hr : analyzeProduct self h.1 (some h.2) with ⟨k, s1⟩
      rw [hr] at hk hnd1 hp1
      simp only at hk hnd1 hp1
      subst hk
      simp only
      apply ih s1 htail hnd.2 _ hnd1
      rcases hp1 with hp1 | hp1
      · rw [hp1]; exact hproc
      · rw [hp1]
        simp only [List.mem_append, List.mem_singleton, not_or]
        exact ⟨hproc, fun hc => hne hc.symm⟩

/-- A record stays in the store through a scan of containers of other ids. -/
theorem forEach_analyzeProduct_mem_other (cs : List (Env × Container))
    (self : RoposoProductAnalyzer) (q : Product) (hq : q ∈ self.excellentProducts)
    (hx : ∀ e ∈ cs, e.2.id ≠ q.id) :
    q ∈ (forEach (fun self (e : Env × Container) => analyzeProduct self e.1 (some e.2))
        self cs).2.excellentProducts := by
  have hf := forEach_analyzeProduct_filter_other cs self q.id hx
  have hin : q ∈ self.excellentProducts.filter (fun p => p.id == q.id) := by
    rw [List.mem_filter]
    exact ⟨hq, by simp⟩
  rw [← hf, List.mem_filter] at hin
  exact hin.1

/-- In a scan of containers of distinct ids, the product of an accepted
container that is not yet processed is in the store at the end. -/
theorem forEach_analyzeProduct_record_mem (cs : List (Env × Container))
    (self : RoposoProductAnalyzer) (e : Env × Container)
    (hmem : e ∈ cs) (hnd : (cs.map (fun e => e.2.id)).Nodup)
    (hid : e.2.id ≠ "") (hproc : e.2.id ∉ self.processedProducts)
    (hq : qualifies e.2 = true) (hname : nameRaises e.2 = false) :
    productOf e.1 e.2 ∈
      (forEach (fun self (e : Env × Container) => analyzeProduct self e.1 (some e.2))
        self cs).2.excellentProducts := by
  induction cs generalizing self with
  | nil => simp at hmem
  | cons h hs ih =>
    simp only [List.map_cons, List.nodup_cons] at hnd
    have hk := analyzeProduct_normal self h.1 (some h.2)
    unfold forEach
    rcases List.mem_cons.mp hmem with heq | htail
    · subst heq
      have hst := (analyzeProduct_fields self e.1 e.2 hid hproc).2.1
      rw [if_pos ⟨hq, hname⟩] at hst
      rcases hr : analyzeProduct self e.1 (some e.2) with ⟨k, s1⟩
      rw [hr] at hk hst
      simp only at hk hst
      subst hk
      simp only
      apply forEach_analyzeProduct_mem_other hs s1 (productOf e.1 e.2)
      · rw [hst]; exact addOrUpdate_mem _ _ _
      · intro y hy hye
        have hye1 : y.2.id = e.2.id := hye
        exact hnd.1 (hye1 ▸ List.mem_map_of_mem (fun e => e.2.id) hy)
    · have hne : h.2.id ≠ e.2.id := by
        intro hc
        exact hnd.1 (hc ▸ List.mem_map_of_mem (fun e => e.2.id) htail)
      have hp1 := analyzeProduct_processed_cases self h.1 h.2
      rcases hr : analyzeProduct self h.1 (some h.2) with ⟨k, s1⟩
      rw [hr] at hk hp1
      simp only at hk hp1
      subst hk
      simp only
      apply ih s1 htail hnd.2
      rcases hp1 with hp1 | hp1
      · rw [hp1]; exact hproc
      · rw [hp1]
        simp only [List.mem_append, List.mem_singleton, not_or]
        exact ⟨hproc, fun hc => hne hc.symm⟩

/-- C4, amended.  (a) `scanExistingProducts` over a page whose product
containers are all in `processedProducts` leaves `excellentProducts` and
`processedProducts` unchanged and looks up no rating.  (b) `rescanAllProducts`
empties `processedProducts` first: over a page whose product containers have
distinct ids it looks up the rating of every one of them again.  (c) When every
accepted container of the page already has a record, `rescanAllProducts` keeps
the ids of the store, in their order, and so the count.  (d) Over a page whose
product containers have distinct ids, `rescanAllProducts` writes the record of
every accepted container anew: the store afterwards holds the product built
from the container as read during the rescan, with the timestamp and the URL of
that reading, and when the ids of the store were pairwise distinct this is the
only record of that id. -/
theorem C4_rescan_amended (self : RoposoProductAnalyzer) (document : List (Env × Container))
    (env : Env) :
    ((∀ e ∈ querySelectorAll document, e.2.id ∈ self.processedProducts) →
      (scanExistingProducts self document env).2.excellentProducts = self.excellentProducts ∧
      (scanExistingProducts self document env).2.processedProducts = self.processedProducts ∧
      (scanExistingProducts self document env).2.ratingLookups = self.ratingLookups) ∧
    (((querySelectorAll document).map (fun e => e.2.id)).Nodup →
      (rescanAllProducts self document env).2.ratingLookups =
        self.ratingLookups ++ (querySelectorAll document).map (fun e => e.2.id)) ∧
    ((∀ e ∈ querySelectorAll document, qualifies e.2 = true →
        e.2.id ∈ self.excellentProducts.map (fun p => p.id)) →
      (rescanAllProducts self document env).2.excellentProducts.map (fun p => p.id) =
        self.excellentProducts.map (fun p => p.id) ∧
      (rescanAllProducts self document env).2.excellentProducts.length =
        self.excellentProducts.length) ∧
    (((querySelectorAll document).map (fun e => e.2.id)).Nodup →
      ∀ e ∈ querySelectorAll document, qualifies e.2 = true → nameRaises e.2 = false →
        productOf e.1 e.2 ∈ (rescanAllProducts self document env).2.excellentProducts ∧
        (productOf e.1 e.2).id = e.2.id ∧
        (productOf e.1 e.2).timestamp = e.1.now ∧
        (productOf e.1 e.2).url = e.1.href ∧
        ((self.excellentProducts.map (fun p => p.id)).Nodup →
          (rescanAllProducts self document env).2.excellentProducts.filter
              (fun p => p.id == e.2.id) = [productOf e.1 e.2])) := by
  have hk := (forEach_normal
    (fun self (e : Env × Container) => analyzeProduct self e.1 (some e.2))
    (fun s e => analyzeProduct_normal s e.1 (some e.2)) (querySelectorAll document)
    { self with processedProducts := [] })
  refine ⟨?_, ?_, ?_, ?_⟩
  · intro h
    unfold scanExistingProducts
    simp only [forEach_analyzeProduct_processed _ self h]
    exact ⟨updateBadge_store _ _, updateBadge_processed _ _, updateBadge_ratingLookups _ _⟩
  · intro hnd
    unfold rescanAllProducts scanExistingProducts
    have hl := (forEach_analyzeProduct_lookups (querySelectorAll document)
      { self with processedProducts := [] } (querySelectorAll_ne_empty document) hnd
      (fun e _ => List.not_mem_nil _)).1
    rw [hk] at hl
    simp only [hk, updateBadge_ratingLookups]
    exact hl
  · intro h
    have hids : (rescanAllProducts self document env).2.excellentProducts.map (fun p => p.id) =
        self.excellentProducts.map (fun p => p.id) := by
      unfold rescanAllProducts scanExistingProducts
      have hl := forEach_analyzeProduct_ids (querySelectorAll document)
        { self with processedProducts := [] } h
      rw [hk] at hl
      simp only [hk, updateBadge_store]
      exact hl
    refine ⟨hids, ?_⟩
    have := congrArg List.length hids
    simpa using this
  · intro hnd e he hq hname
    have hid := querySelectorAll_ne_empty document e he
    refine ⟨?_, rfl, rfl, rfl, ?_⟩
    · have hm := forEach_analyzeProduct_record_mem (querySelectorAll document)
        { self with processedProducts := [] } e he hnd hid (List.not_mem_nil _) hq hname
      unfold rescanAllProducts scanExistingProducts
      rw [hk] at hm
      simp only [hk, updateBadge_store]
      exact hm
    · intro hstore
      have hrec := forEach_analyzeProduct_record (querySelectorAll document)
        { self with processedProducts := [] } e he hnd hid (List.not_mem_nil _) hstore hq hname
      unfold rescanAllProducts scanExistingProducts
      rw [hk] at hrec
      simp only [hk, updateBadge_store]
      exact hrec

/-- Witness of C4, amended: the page holding `A` is scanned at time 1.  Scanned
again without emptying `processedProducts`, the store is unchanged;
`rescanAllProducts` at time 3 looks up the rating of `A` again, keeps the ids
of the store and replaces the record of `A` by the one of time 3. -/
theorem C4_rescan_amended_witness :
    (∀ e ∈ querySelectorAll
        [(calmEnv 3, card "category-page-product-item-A" (some "excellent") none)],
      e.2.id ∈ (scanExistingProducts (new 0 0 0)
        [(calmEnv 1, card "category-page-product-item-A" (some "excellent") none)]
        (calmEnv 2)).2.processedProducts) ∧
    (scanExistingProducts
        (scanExistingProducts (new 0 0 0)
          [(calmEnv 1, card "category-page-product-item-A" (some "excellent") none)]
          (calmEnv 2)).2
        [(calmEnv 3, card "category-page-product-item-A" (some "excellent") none)]
        (calmEnv 4)).2.excellentProducts =
      (scanExistingProducts (new 0 0 0)
        [(calmEnv 1, card "category-page-product-item-A" (some "excellent") none)]
        (calmEnv 2)).2.excellentProducts ∧
    (rescanAllProducts
        (scanExistingProducts (new 0 0 0)
          [(calmEnv 1, card "category-page-product-item-A" (some "excellent") none)]
          (calmEnv 2)).2
        [(calmEnv 3, card "category-page-product-item-A" (some "excellent") none)]
        (calmEnv 4)).2.ratingLookups =
      (scanExistingProducts (new 0 0 0)
        [(calmEnv 1, card "category-page-product-item-A" (some "excellent") none)]
        (calmEnv 2)).2.ratingLookups ++
        (querySelectorAll
          [(calmEnv 3, card "category-page-product-item-A" (some "excellent") none)]).map
          (fun e => e.2.id) ∧
    (rescanAllProducts
        (scanExistingProducts (new 0 0 0)
          [(calmEnv 1, card "category-page-product-item-A" (some "excellent") none)]
          (calmEnv 2)).2
        [(calmEnv 3, card "category-page-product-item-A" (some "excellent") none)]
        (calmEnv 4)).2.excellentProducts.map (fun p => p.id) =
      (scanExistingProducts (new 0 0 0)
        [(calmEnv 1, card "category-page-product-item-A" (some "excellent") none)]
        (calmEnv 2)).2.excellentProducts.map (fun p => p.id) ∧
    (rescanAllProducts
        (scanExistingProducts (new 0 0 0)
          [(calmEnv 1, card "category-page-product-item-A" (some "excellent") none)]
          (calmEnv 2)).2
        [(calmEnv 3, card "category-page-product-item-A" (some "excellent") none)]
        (calmEnv 4)).2.excellentProducts.filter
        (fun p => p.id == "category-page-product-item-A") =
      [productOf (calmEnv 3) (card "category-page-product-item-A" (some "excellent") none)] ∧
    (rescanAllProducts
        (scanExistingProducts (new 0 0 0)
          [(calmEnv 1, card "category-page-product-item-A" (some "excellent") none)]
          (calmEnv 2)).2
        [(calmEnv 3, card "category-page-product-item-A" (some "excellent") none)]
        (calmEnv 4)).2.excellentProducts =
      [{ id := "category-page-product-item-A", name := "Product category-page-product-item-A",
         rating := "excellent", timestamp := 3,
         url := "https://app.roposoclout.com/marketplace" }] :=
  ⟨by decide,
    ((C4_rescan_amended
      (scanExistingProducts (new 0 0 0)
        [(calmEnv 1, card "category-page-product-item-A" (some "excellent") none)]
        (calmEnv 2)).2
      [(calmEnv 3, card "category-page-product-item-A" (some "excellent") none)]
      (calmEnv 4)).1 (by decide)).1,
    (C4_rescan_amended
      (scanExistingProducts (new 0 0 0)
        [(calmEnv 1, card "category-page-product-item-A" (some "excellent") none)]
        (calmEnv 2)).2
      [(calmEnv 3, card "category-page-product-item-A" (some "excellent") none)]
      (calmEnv 4)).2.1 (by decide),
    ((C4_rescan_amended
      (scanExistingProducts (new 0 0 0)
        [(calmEnv 1, card "category-page-product-item-A" (some "excellent") none)]
        (calmEnv 2)).2
      [(calmEnv 3, card "category-page-product-item-A" (some "excellent") none)]
      (calmEnv 4)).2.2.1 (by decide)).1,
    ((C4_rescan_amended
      (scanExistingProducts (new 0 0 0)
        [(calmEnv 1, card "category-page-product-item-A" (some "excellent") none)]
        (calmEnv 2)).2
      [(calmEnv 3, card "category-page-product-item-A" (some "excellent") none)]
      (calmEnv 4)).2.2.2 (by decide)
      (calmEnv 3, card "category-page-product-item-A" (some "excellent") none)
      (by simp [querySelectorAll, startsWith, productItemIdStart, card])
      (by decide) (by decide)).2.2.2.2 (by decide),
    by decide⟩

/-- C5, as stated, fails: `A` analysed as `excellent` at time 1 and analysed
again as `good` at time 2 keeps the record of the first call, because the
second call finds `A` in `processedProducts` and returns at once. -/
theorem C5_second_scan_counterexample :
    (analyzeProduct
        (analyzeProduct (new 0 0 0) (calmEnv 1) (some (card "A" (some "excellent") none))).2
        (calmEnv 2) (some (card "A" (some "good") none))).2.excellentProducts =
      [{ id := "A", name := "Product A", rating := "excellent", timestamp := 1,
         url := "https://app.roposoclout.com/marketplace" }] := by
  decide

/-- C5, amended.  Let the container `A` (non-empty id, not yet processed, store
ids pairwise distinct) be analysed with label `excellent` at time `t1`.  Then
the store holds one record for `A`, with rating `excellent` and timestamp `t1`,
and a second `analyzeProduct` on a container of that id changes nothing,
whatever its label and whenever it is called, `A` being in
`processedProducts`.  When `processedProducts` has been emptied in between and
the store kept, a call on `A` labelled `good` at time `t2` leaves exactly one
record for `A`, with rating `good` and timestamp `t2`; so does
`rescanAllProducts`, which empties `processedProducts` itself, over a page of
product containers with distinct ids that holds `A` labelled `good`, read at
time `t2`. -/
theorem C5_second_label_amended (self : RoposoProductAnalyzer) (env1 : Env) (c1 : Container)
    (hid : c1.id ≠ "") (hnew : c1.id ∉ self.processedProducts)
    (hstore : (self.excellentProducts.map (fun p => p.id)).Nodup)
    (h1 : ratingText c1 = some "excellent") (hname1 : nameRaises c1 = false) :
    (analyzeProduct self env1 (some c1)).2.excellentProducts.filter (fun p => p.id == c1.id) =
      [productOf env1 c1] ∧
    (productOf env1 c1).rating = "excellent" ∧ (productOf env1 c1).timestamp = env1.now ∧
    (∀ (env2 : Env) (c2 : Container), c2.id = c1.id →
      analyzeProduct (analyzeProduct self env1 (some c1)).2 env2 (some c2) =
        (.normal, (analyzeProduct self env1 (some c1)).2)) ∧
    (∀ (env2 : Env) (c2 : Container), c2.id = c1.id →
      ratingText c2 = some "good" → nameRaises c2 = false →
      (analyzeProduct { (analyzeProduct self env1 (some c1)).2 with processedProducts := [] }
          env2 (some c2)).2.excellentProducts.filter (fun p => p.id == c1.id) =
        [productOf env2 c2] ∧
      (productOf env2 c2).rating = "good" ∧ (productOf env2 c2).timestamp = env2.now) ∧
    (∀ (env2 envB : Env) (c2 : Container) (document : List (Env × Container)),
      c2.id = c1.id → ratingText c2 = some "good" → nameRaises c2 = false →
      (env2, c2) ∈ querySelectorAll document →
      ((querySelectorAll document).map (fun e => e.2.id)).Nodup →
      (rescanAllProducts (analyzeProduct self env1 (some c1)).2 document
          envB).2.excellentProducts.filter (fun p => p.id == c1.id) = [productOf env2 c2] ∧
      (productOf env2 c2).rating = "good" ∧ (productOf env2 c2).timestamp = env2.now) := by
  have hq1 : qualifies c1 = true := by simp [qualifies, h1]
  obtain ⟨-, hst, hpr, -⟩ := analyzeProduct_fields self env1 c1 hid hnew
  have hnd1 := analyzeProduct_nodup self env1 (some c1) hstore
  refine ⟨?_, by simp [productOf, h1], rfl, ?_, ?_, ?_⟩
  · rw [hst, if_pos ⟨hq1, hname1⟩]
    exact addOrUpdate_filter_eq _ _ _ rfl hstore
  · intro env2 c2 hsame
    apply analyzeProduct_skip_processed
    rw [hpr, hsame]
    simp
  · intro env2 c2 hsame h2 hname2
    have hq2 : qualifies c2 = true := by simp [qualifies, h2]
    refine ⟨?_, by simp [productOf, h2], rfl⟩
    have hst2 := (analyzeProduct_fields
      { (analyzeProduct self env1 (some c1)).2 with processedProducts := [] } env2 c2
      (by rw [hsame]; exact hid) (List.not_mem_nil _)).2.1
    rw [if_pos ⟨hq2, hname2⟩] at hst2
    rw [hst2, ← hsame]
    exact addOrUpdate_filter_eq _ _ _ rfl hnd1
  · intro env2 envB c2 document hsame h2 hname2 hpage hdistinct
    have hq2 : qualifies c2 = true := by simp [qualifies, h2]
    refine ⟨?_, by simp [productOf, h2], rfl⟩
    unfold rescanAllProducts scanExistingProducts
    have hrec := forEach_analyzeProduct_record (querySelectorAll document)
      { (analyzeProduct self env1 (some c1)).2 with processedProducts := [] } (env2, c2)
      hpage hdistinct (by rw [hsame]; exact hid) (List.not_mem_nil _) hnd1 hq2 hname2
    have hk := (forEach_normal
      (fun self (e : Env × Container) => analyzeProduct self e.1 (some e.2))
      (fun s e => analyzeProduct_normal s e.1 (some e.2)) (querySelectorAll document)
      { (analyzeProduct self env1 (some c1)).2 with processedProducts := [] })
    rw [hk] at hrec
    simp only [hk, updateBadge_store]
    simp only [hsame] at hrec
    exact hrec

/-- Witness of C5, amended.  The card `A` is analysed as `excellent` at time 1:
a second call on `A` labelled `good` at time 2 is skipped, and the same call
after `processedProducts` has been emptied leaves the one record of time 2.
The card `category-page-product-item-A`, analysed as `excellent` at time 1 and
found as `good` by a rescan at time 2, ends with the one record of time 2. -/
theorem C5_second_label_amended_witness :
    analyzeProduct
        (analyzeProduct (new 0 0 0) (calmEnv 1) (some (card "A" (some "excellent") none))).2
        (calmEnv 2) (some (card "A" (some "good") none)) =
      (.normal,
        (analyzeProduct (new 0 0 0) (calmEnv 1) (some (card "A" (some "excellent") none))).2) ∧
    (analyzeProduct
        { (analyzeProduct (new 0 0 0) (calmEnv 1)
            (some (card "A" (some "excellent") none))).2 with processedProducts := [] }
        (calmEnv 2) (some (card "A" (some "good") none))).2.excellentProducts.filter
        (fun p => p.id == (card "A" (some "excellent") none).id) =
      [productOf (calmEnv 2) (card "A" (some "good") none)] ∧
    (analyzeProduct
        { (analyzeProduct (new 0 0 0) (calmEnv 1)
            (some (card "A" (some "excellent") none))).2 with processedProducts := [] }
        (calmEnv 2) (some (card "A" (some "good") none))).2.excellentProducts =
      [{ id := "A", name := "Product A", rating := "good", timestamp := 2,
         url := "https://app.roposoclout.com/marketplace" }] ∧
    (rescanAllProducts
        (analyzeProduct (new 0 0 0) (calmEnv 1)
          (some (card "category-page-product-item-A" (some "excellent") none))).2
        [(calmEnv 2, card "category-page-product-item-A" (some "good") none)]
        (calmEnv 3)).2.excellentProducts.filter
        (fun p => p.id == (card "category-page-product-item-A" (some "excellent") none).id) =
      [productOf (calmEnv 2) (card "category-page-product-item-A" (some "good") none)] ∧
    (rescanAllProducts
        (analyzeProduct (new 0 0 0) (calmEnv 1)
          (some (card "category-page-product-item-A" (some "excellent") none))).2
        [(calmEnv 2, card "category-page-product-item-A" (some "good") none)]
        (calmEnv 3)).2.excellentProducts =
      [{ id := "category-page-product-item-A", name := "Product category-page-product-item-A",
         rating := "good", timestamp := 2, url := "https://app.roposoclout.com/marketplace" }] :=
  ⟨(C5_second_label_amended (new 0 0 0) (calmEnv 1) (card "A" (some "excellent") none)
      (by decide) (by decide) (by decide) (by decide) (by decide)).2.2.2.1
      (calmEnv 2) (card "A" (some "good") none) rfl,
    ((C5_second_label_amended (new 0 0 0) (calmEnv 1) (card "A" (some "excellent") none)
      (by decide) (by decide) (by decide) (by decide) (by decide)).2.2.2.2.1
      (calmEnv 2) (card "A" (some "good") none) rfl (by decide) (by decide)).1,
    by decide,
    ((C5_second_label_amended (new 0 0 0) (calmEnv 1)
      (card "category-page-product-item-A" (some "excellent") none)
      (by decide) (by decide) (by decide) (by decide) (by decide)).2.2.2.2.2
      (calmEnv 2) (calmEnv 3) (card "category-page-product-item-A" (some "good") none)
      [(calmEnv 2, card "category-page-product-item-A" (some "good") none)]
      rfl (by decide) (by decide)
      (by simp [querySelectorAll, startsWith, productItemIdStart, card])
      (by decide)).1,
    by decide⟩

/-! ## The scroll driver -/

theorem ScrollInv_of_scrollDriver (a b : RoposoProductAnalyzer)
    (h : scrollDriver b = scrollDriver a) (ha : ScrollInv a) : ScrollInv b := by
  simp only [scrollDriver, Prod.mk.injEq] at h
  obtain ⟨h1, h2, h3, h4, h5, -⟩ := h
  unfold ScrollInv at ha ⊢
  rw [h1, h2, h3, h4, h5]
  exact ha

theorem ScrollInv_new (scrollY scrollHeight innerHeight : Nat) :
    ScrollInv (new scrollY scrollHeight innerHeight) := by
  simp [ScrollInv, new]

/-- What `autoScroll` does while scrolling is enabled: one `scrollBy`, one new
timer. -/
theorem autoScroll_enabled (self : RoposoProductAnalyzer) (h : self.autoScrollEnabled = true) :
    (autoScroll self).timers = self.timers ++ [self.nextTimerId] ∧
    (autoScroll self).scrollTimeout = some self.nextTimerId ∧
    (autoScroll self).nextTimerId = self.nextTimerId + 1 ∧
    (autoScroll self).autoScrollEnabled = true ∧
    (autoScroll self).isScrolling = self.isScrolling ∧
    (∃ dy, (autoScroll self).scrollCalls = self.scrollCalls ++ [dy]) := by
  unfold autoScroll
  simp only [h, Bool.not_true, Bool.false_eq_true, if_false]
  split
  · exact ⟨rfl, rfl, rfl, h, rfl, 500, rfl⟩
  · exact ⟨rfl, rfl, rfl, h, rfl, 300, rfl⟩

theorem startAutoScroll_inv (self : RoposoProductAnalyzer) (h : ScrollInv self) :
    ScrollInv (startAutoScroll self) := by
  unfold startAutoScroll
  by_cases hs : self.isScrolling = true
  · rw [if_pos hs]; exact h
  · rw [if_neg hs]
    obtain ⟨-, hn, -, ht⟩ := h
    have htm : self.timers = [] := by
      rcases ht with ht | ⟨ht, -⟩
      · exact ht
      · exact absurd ht hs
    obtain ⟨a1, a2, a3, a4, a5, -⟩ := autoScroll_enabled
      { self with autoScrollEnabled := true, isScrolling := true } rfl
    simp only at a1 a2 a3 a4 a5
    unfold ScrollInv
    rw [a1, a2, a3, a4, a5, htm]
    refine ⟨rfl, by omega, ?_, Or.inr ⟨rfl, self.nextTimerId, rfl, rfl⟩⟩
    intro id hid
    cases hid
    omega

/-- After `stopAutoScroll` from a state of the invariant no timer is pending. -/
theorem stopAutoScroll_timers (self : RoposoProductAnalyzer) (h : ScrollInv self) :
    (stopAutoScroll self).timers = [] := by
  obtain ⟨-, -, hid, ht⟩ := h
  unfold stopAutoScroll
  cases hst : self.scrollTimeout with
  | none =>
    rcases ht with ht | ⟨-, id, -, hsome⟩
    · simpa using ht
    · rw [hst] at hsome; cases hsome
  | some id =>
    have hpos := (hid id hst).1
    have hne : id ≠ 0 := by omega
    simp only [hne, ne_eq, not_false_eq_true, if_true, clearTimeout]
    rcases ht with ht | ⟨-, id1, htm, hsome⟩
    · simp [ht]
    · rw [hst] at hsome
      cases hsome
      simp [htm]

theorem stopAutoScroll_inv (self : RoposoProductAnalyzer) (h : ScrollInv self) :
    ScrollInv (stopAutoScroll self) := by
  have htm := stopAutoScroll_timers self h
  obtain ⟨-, hn, hid, -⟩ := h
  have hflags : (stopAutoScroll self).autoScrollEnabled = false ∧
      (stopAutoScroll self).isScrolling = false ∧
      (stopAutoScroll self).nextTimerId = self.nextTimerId ∧
      (stopAutoScroll self).scrollTimeout = self.scrollTimeout := by
    unfold stopAutoScroll
    cases self.scrollTimeout with
    | none => exact ⟨rfl, rfl, rfl, rfl⟩
    | some id =>
      simp only
      split <;> exact ⟨rfl, rfl, rfl, rfl⟩
  unfold ScrollInv
  rw [hflags.1, hflags.2.1, hflags.2.2.1, hflags.2.2.2, htm]
  exact ⟨rfl, hn, hid, Or.inl rfl⟩

theorem timerFires_inv (self : RoposoProductAnalyzer) (id : Nat) (h : ScrollInv self) :
    ScrollInv (timerFires self id) := by
  unfold timerFires
  by_cases hmem : id ∈ self.timers
  · rw [if_pos hmem]
    obtain ⟨hflag, hn, -, ht⟩ := h
    rcases ht with ht | ⟨hs, id1, htm, -⟩
    · rw [ht] at hmem; simp at hmem
    · rw [htm] at hmem
      simp only [List.mem_singleton] at hmem
      subst hmem
      have hen : self.autoScrollEnabled = true := by rw [hflag, hs]
      obtain ⟨a1, a2, a3, a4, a5, -⟩ := autoScroll_enabled
        { self with timers := self.timers.filter (fun t => t != id) } hen
      simp only at a1 a2 a3 a4 a5
      unfold ScrollInv
      rw [a1, a2, a3, a4, a5, htm, hs]
      refine ⟨rfl, by omega, ?_, Or.inr ⟨rfl, self.nextTimerId, by simp, rfl⟩⟩
      intro i hi
      cases hi
      omega
  · rw [if_neg hmem]; exact h

theorem scanExistingProducts_scrollDriver (self : RoposoProductAnalyzer)
    (document : List (Env × Container)) (env : Env) :
    scrollDriver (scanExistingProducts self document env).2 = scrollDriver self :=
  scanExistingProducts_preserves (fun s => scrollDriver s = scrollDriver self)
    (fun s env c hs => (analyzeProduct_scrollDriver s env c).trans hs)
    (fun s env hs => (updateBadge_scrollDriver s env).trans hs) self document env rfl

theorem mutationCallback_scrollDriver (self : RoposoProductAnalyzer)
    (mutations : List MutationRecord) (env : Env) :
    scrollDriver (mutationCallback self mutations env).2 = scrollDriver self :=
  mutationCallback_preserves (fun s => scrollDriver s = scrollDriver self)
    (fun s env c hs => (analyzeProduct_scrollDriver s env c).trans hs)
    (fun s env hs => (updateBadge_scrollDriver s env).trans hs) self mutations env rfl

theorem step_inv (self : RoposoProductAnalyzer) (e : Event) (h : ScrollInv self) :
    ScrollInv (step self e) := by
  cases e with
  | analyzeProduct env container =>
    exact ScrollInv_of_scrollDriver _ _ (analyzeProduct_scrollDriver self env container) h
  | scanExistingProducts document env =>
    exact ScrollInv_of_scrollDriver _ _ (scanExistingProducts_scrollDriver self document env) h
  | rescanAllProducts document env =>
    exact ScrollInv_of_scrollDriver _ _
      (scanExistingProducts_scrollDriver { self with processedProducts := [] } document env) h
  | mutations batch env =>
    exact ScrollInv_of_scrollDriver _ _ (mutationCallback_scrollDriver self batch env) h
  | loadExistingProducts getItem =>
    apply ScrollInv_of_scrollDriver _ _ _ h
    simp only [step, loadExistingProducts]
    cases getItem with
    | raises => rfl
    | value u => cases self.localStorage <;> rfl
  | clearAllData removeItem env =>
    apply ScrollInv_of_scrollDriver _ _ _ h
    simp only [step, clearAllData]
    cases removeItem with
    | raises => rfl
    | value u => rw [updateBadge_scrollDriver]; rfl
  | startAutoScroll => exact startAutoScroll_inv self h
  | stopAutoScroll => exact stopAutoScroll_inv self h
  | timerFires id => exact timerFires_inv self id h
  | page y sh ih => exact h

/-- Every state reached from a new analyzer satisfies the scroll invariant. -/
theorem run_inv (self : RoposoProductAnalyzer) (events : List Event) (h : ScrollInv self) :
    ScrollInv (run self events) := by
  induction events generalizing self with
  | nil => exact h
  | cons e es ih =>
    simp only [run, List.foldl_cons]
    exact ih (step self e) (step_inv self e h)

theorem elapse_no_timers (self : RoposoProductAnalyzer) (ids : List Nat)
    (h : self.timers = []) : elapse self ids = self := by
  induction ids with
  | nil => rfl
  | cons id ids ih =>
    simp only [elapse, List.foldl_cons]
    have : timerFires self id = self := by
      unfold timerFires
      simp [h]
    rw [this]
    exact ih

theorem stopAutoScroll_scroll (self : RoposoProductAnalyzer) :
    (stopAutoScroll self).scrollY = self.scrollY ∧
    (stopAutoScroll self).scrollCalls = self.scrollCalls := by
  unfold stopAutoScroll
  cases self.scrollTimeout with
  | none => exact ⟨rfl, rfl⟩
  | some id =>
    simp only
    split <;> exact ⟨rfl, rfl⟩

/-- A pending timer that elapses makes one scroll step. -/
theorem timerFires_pending (self : RoposoProductAnalyzer) (id : Nat) (h : ScrollInv self)
    (hmem : id ∈ self.timers) :
    ∃ dy, (timerFires self id).scrollCalls = self.scrollCalls ++ [dy] := by
  unfold timerFires
  rw [if_pos hmem]
  obtain ⟨hflag, -, -, ht⟩ := h
  rcases ht with ht | ⟨hs, -⟩
  · rw [ht] at hmem; simp at hmem
  · have hen : self.autoScrollEnabled = true := by rw [hflag, hs]
    exact (autoScroll_enabled
      { self with timers := self.timers.filter (fun t => t != id) } hen).2.2.2.2.2

/-- C6. Scroll driver cancellation.  In every state reached from a new analyzer
by any sequence of events, `stopAutoScroll` leaves no timer pending, so that
whichever timeouts elapse afterwards the state is the one `stopAutoScroll`
left: `window.scrollBy` is not called and the scroll position does not move.
Without the stop, a pending timer that elapses does call `window.scrollBy`. -/
theorem C6_stop_cancels_pending_cycle (scrollY scrollHeight innerHeight : Nat)
    (events : List Event) (ids : List Nat) :
    (stopAutoScroll (run (new scrollY scrollHeight innerHeight) events)).timers = [] ∧
    elapse (stopAutoScroll (run (new scrollY scrollHeight innerHeight) events)) ids =
      stopAutoScroll (run (new scrollY scrollHeight innerHeight) events) ∧
    (elapse (stopAutoScroll (run (new scrollY scrollHeight innerHeight) events)) ids).scrollCalls =
      (run (new scrollY scrollHeight innerHeight) events).scrollCalls ∧
    (elapse (stopAutoScroll (run (new scrollY scrollHeight innerHeight) events)) ids).scrollY =
      (run (new scrollY scrollHeight innerHeight) events).scrollY ∧
    (∀ id ∈ (run (new scrollY scrollHeight innerHeight) events).timers,
      ∃ dy, (timerFires (run (new scrollY scrollHeight innerHeight) events) id).scrollCalls =
        (run (new scrollY scrollHeight innerHeight) events).scrollCalls ++ [dy]) := by
  have hinv := run_inv (new scrollY scrollHeight innerHeight) events
    (ScrollInv_new scrollY scrollHeight innerHeight)
  have htm := stopAutoScroll_timers _ hinv
  have hel := elapse_no_timers _ ids htm
  refine ⟨htm, hel, ?_, ?_, ?_⟩
  · rw [hel]; exact (stopAutoScroll_scroll _).2
  · rw [hel]; exact (stopAutoScroll_scroll _).1
  · intro id hid
    exact timerFires_pending _ id hinv hid

/-- Witness of C6: the driver is started on a page of height 5000 seen through
a window of height 800, its first timer (id 1) is pending; after the stop the
timeouts 1, 2, 3 elapse without a scroll step, while without the stop the
timer 1 scrolls once more. -/
theorem C6_stop_cancels_pending_cycle_witness :
    (run (new 0 5000 800) [Event.startAutoScroll]).isScrolling = true ∧
    (run (new 0 5000 800) [Event.startAutoScroll]).timers = [1] ∧
    (elapse (stopAutoScroll (run (new 0 5000 800) [Event.startAutoScroll])) [1, 2, 3]).scrollY =
      (run (new 0 5000 800) [Event.startAutoScroll]).scrollY ∧
    (elapse (stopAutoScroll (run (new 0 5000 800) [Event.startAutoScroll])) [1, 2, 3]).scrollY =
      300 ∧
    (elapse (run (new 0 5000 800) [Event.startAutoScroll]) [1, 2, 3]).scrollY = 1200 :=
  ⟨by decide, by decide,
    (C6_stop_cancels_pending_cycle 0 5000 800 [Event.startAutoScroll] [1, 2, 3]).2.2.2.1,
    by decide, by decide⟩

/-- C10. Scroll driver idempotence.  In every state reached from a new
analyzer: `startAutoScroll` while scrolling changes nothing (no scroll step, no
timer), `stopAutoScroll` while not scrolling changes nothing, and calling
either twice in a row gives the state of calling it once. -/
theorem C10_start_stop_idempotent (scrollY scrollHeight innerHeight : Nat)
    (events : List Event) :
    ((run (new scrollY scrollHeight innerHeight) events).isScrolling = true →
      startAutoScroll (run (new scrollY scrollHeight innerHeight) events) =
        run (new scrollY scrollHeight innerHeight) events) ∧
    ((run (new scrollY scrollHeight innerHeight) events).isScrolling = false →
      stopAutoScroll (run (new scrollY scrollHeight innerHeight) events) =
        run (new scrollY scrollHeight innerHeight) events) ∧
    startAutoScroll (startAutoScroll (run (new scrollY scrollHeight innerHeight) events)) =
      startAutoScroll (run (new scrollY scrollHeight innerHeight) events) ∧
    stopAutoScroll (stopAutoScroll (run (new scrollY scrollHeight innerHeight) events)) =
      stopAutoScroll (run (new scrollY scrollHeight innerHeight) events) := by
  have hinv := run_inv (new scrollY scrollHeight innerHeight) events
    (ScrollInv_new scrollY scrollHeight innerHeight)
  generalize run (new scrollY scrollHeight innerHeight) events = s at hinv
  have hstart : ∀ t : RoposoProductAnalyzer, t.isScrolling = true → startAutoScroll t = t := by
    intro t ht
    unfold startAutoScroll
    rw [if_pos ht]
  have hstop : ∀ t : RoposoProductAnalyzer, ScrollInv t → t.isScrolling = false →
      stopAutoScroll t = t := by
    intro t hinv ht
    obtain ⟨hflag, -, hid, htm⟩ := hinv
    have hen : t.autoScrollEnabled = false := by rw [hflag, ht]
    have htimers : t.timers = [] := by
      rcases htm with h | ⟨h, -⟩
      · exact h
      · rw [ht] at h; cases h
    unfold stopAutoScroll
    cases t with
    | mk ep pp ae st isS ls bm rl tm nt sy sh ih sc =>
      simp only at ht hen htimers
      subst ht hen htimers
      cases st with
      | none => rfl
      | some id =>
        simp only
        split <;> simp [clearTimeout]
  refine ⟨hstart s, hstop s hinv, ?_, ?_⟩
  · apply hstart
    unfold startAutoScroll
    by_cases hs : s.isScrolling = true
    · rw [if_pos hs]; exact hs
    · rw [if_neg hs]
      exact (autoScroll_enabled { s with autoScrollEnabled := true, isScrolling := true }
        rfl).2.2.2.2.1
  · apply hstop _ (stopAutoScroll_inv s hinv)
    unfold stopAutoScroll
    cases s.scrollTimeout with
    | none => rfl
    | some id =>
      simp only
      split <;> rfl

/-- Witness of C10: after one `startAutoScroll` the driver is scrolling and a
second `startAutoScroll` changes nothing; before it, the driver is not
scrolling and `stopAutoScroll` changes nothing. -/
theorem C10_start_stop_idempotent_witness :
    (run (new 0 5000 800) [Event.startAutoScroll]).isScrolling = true ∧
    startAutoScroll (run (new 0 5000 800) [Event.startAutoScroll]) =
      run (new 0 5000 800) [Event.startAutoScroll] ∧
    (run (new 0 5000 800) []).isScrolling = false ∧
    stopAutoScroll (run (new 0 5000 800) []) = run (new 0 5000 800) [] :=
  ⟨by decide,
    (C10_start_stop_idempotent 0 5000 800 [Event.startAutoScroll]).1 (by decide),
    by decide,
    (C10_start_stop_idempotent 0 5000 800 []).2.1 (by decide)⟩

/-! ## CSV export -/

/-- Splitting a joined block on the line feed gives back the pieces when no
piece holds a line feed. -/
theorem split_join_lines (xs : List String) (hne : xs ≠ [])
    (h : ∀ x ∈ xs, '\n' ∉ x.data) : split (join xs "\n") '\n' = xs := by
  unfold split join
  have hsep : ("\n" : String).data = ['\n'] := rfl
  rw [hsep]
  simp only
  rw [List.splitOn_intercalate _ '\n']
  · rw [List.map_map]
    have : (String.mk ∘ String.data) = id := by
      funext s
      rfl
    rw [this, List.map_id]
  · intro l hl
    rw [List.mem_map] at hl
    obtain ⟨x, hx, rfl⟩ := hl
    exact h x hx
  · intro hnil
    apply hne
    exact List.map_eq_nil_iff.mp hnil

theorem join_four_data (a b c d sep : String) :
    (join [a, b, c, d] sep).data =
      a.data ++ sep.data ++ b.data ++ sep.data ++ c.data ++ sep.data ++ d.data := by
  simp [join, List.intercalate, List.intersperse]

/-- C7, as stated, fails: a card whose name element has the text
`Blue`, line feed, `Shirt` is recorded by `analyzeProduct` under that name, and
the export of this one record splits into three lines, not two. -/
theorem C7_csv_lines_counterexample :
    (analyzeProduct (new 0 0 0) (calmEnv 1)
        (some (card "category-page-product-item-A" (some "good")
          (some "Blue\nShirt")))).2.excellentProducts =
      [{ id := "category-page-product-item-A", name := "Blue\nShirt", rating := "good",
         timestamp := 1, url := "https://app.roposoclout.com/marketplace" }] ∧
    (split (exportToCSV (fun _ => "1/1/2026, 12:00:00 AM")
      (analyzeProduct (new 0 0 0) (calmEnv 1)
        (some (card "category-page-product-item-A" (some "good")
          (some "Blue\nShirt")))).2.excellentProducts) '\n').length = 3 := by
  decide

/-- C7, amended.  `exportToCSV` returns the header line
`Product Name,Rating,Product ID,Found At` and one row per record, in order,
joined by line feeds; each row begins with the name of its record between
double quotes; and when no name, rating, id or formatted date holds a line
feed, splitting the text on the line feed gives exactly these `N + 1` lines. -/
theorem C7_csv_lines_amended (toLocaleString : Nat → String) (products : List Product) :
    exportToCSV toLocaleString products =
      join ("Product Name,Rating,Product ID,Found At" ::
        products.map (fun p =>
          join ["\"" ++ p.name ++ "\"", p.rating, p.id, toLocaleString p.timestamp] ",")) "\n" ∧
    (∀ p : Product,
      startsWith (join ["\"" ++ p.name ++ "\"", p.rating, p.id, toLocaleString p.timestamp] ",")
        ("\"" ++ p.name ++ "\"") = true) ∧
    ((∀ p ∈ products, '\n' ∉ p.name.data ∧ '\n' ∉ p.rating.data ∧ '\n' ∉ p.id.data ∧
        '\n' ∉ (toLocaleString p.timestamp).data) →
      split (exportToCSV toLocaleString products) '\n' =
        "Product Name,Rating,Product ID,Found At" ::
          products.map (fun p =>
            join ["\"" ++ p.name ++ "\"", p.rating, p.id, toLocaleString p.timestamp] ",") ∧
      (split (exportToCSV toLocaleString products) '\n').length = products.length + 1) := by
  have hdef : exportToCSV toLocaleString products =
      join ("Product Name,Rating,Product ID,Found At" ::
        products.map (fun p =>
          join ["\"" ++ p.name ++ "\"", p.rating, p.id, toLocaleString p.timestamp] ",")) "\n" := by
    unfold exportToCSV
    simp only [List.map_map]
    rfl
  refine ⟨hdef, ?_, ?_⟩
  · intro p
    unfold startsWith
    rw [List.isPrefixOf_iff_prefix, join_four_data]
    simp only [List.append_assoc]
    exact List.prefix_append _ _
  · intro h
    have hsplit : split (exportToCSV toLocaleString products) '\n' =
        "Product Name,Rating,Product ID,Found At" ::
          products.map (fun p =>
            join ["\"" ++ p.name ++ "\"", p.rating, p.id, toLocaleString p.timestamp] ",") := by
      rw [hdef]
      apply split_join_lines _ (List.cons_ne_nil _ _)
      intro x hx
      rcases List.mem_cons.mp hx with hx | hx
      · subst hx
        decide
      · rw [List.mem_map] at hx
        obtain ⟨p, hp, rfl⟩ := hx
        obtain ⟨h1, h2, h3, h4⟩ := h p hp
        rw [join_four_data]
        have hq : ("\"" : String).data = ['"'] := rfl
        have hc : ("," : String).data = [','] := rfl
        simp only [String.data_append, hq, hc, List.mem_append, List.mem_singleton,
          List.mem_cons, not_or]
        simp [h1, h2, h3, h4]
    refine ⟨hsplit, ?_⟩
    rw [hsplit]
    simp

/-- Witness of C7, amended: two records without line feeds give three lines. -/
theorem C7_csv_lines_amended_witness :
    (split (exportToCSV (fun _ => "1/1/2026, 12:00:00 AM")
      [{ id := "category-page-product-item-A", name := "Blue Shirt", rating := "good",
         timestamp := 1, url := "https://app.roposoclout.com/marketplace" },
       { id := "category-page-product-item-B", name := "Red \"Hat\"", rating := "excellent",
         timestamp := 2, url := "https://app.roposoclout.com/marketplace" }]) '\n').length
      = 2 + 1 :=
  ((C7_csv_lines_amended (fun _ => "1/1/2026, 12:00:00 AM")
      [{ id := "category-page-product-item-A", name := "Blue Shirt", rating := "good",
         timestamp := 1, url := "https://app.roposoclout.com/marketplace" },
       { id := "category-page-product-item-B", name := "Red \"Hat\"", rating := "excellent",
         timestamp := 2, url := "https://app.roposoclout.com/marketplace" }]).2.2
    (by decide)).2

/-! ## Faults -/

/-- The `try` block raises exactly when the rating lookup raises, or the
container is accepted and the name lookup, the highlight or the badge message
raises. -/
theorem analyzeTry_throws_iff (self : RoposoProductAnalyzer) (env : Env) (c : Container) :
    (analyzeTry self env c).1 = .throws ↔
      (ratingRaises c = true ∨
        (qualifies c = true ∧
          (nameRaises c = true ∨ c.highlightProduct = .raises ∨ env.sendMessage = .raises))) := by
  unfold analyzeTry qualifies nameRaises ratingRaises ratingText
  cases hr : ratingElement c with
  | raises => simp
  | value o =>
    cases o with
    | none => simp
    | some el =>
      cases ht : trimmedText el with
      | raises => simp [ht]
      | value t =>
        by_cases hq : toLowerCase t = "excellent" ∨ toLowerCase t = "good"
        · cases hn : nameElement c with
          | raises => simp [hq, ht]
          | value nameEl =>
            cases hpn : productName c nameEl with
            | raises => simp [hq, ht, hpn]
            | value name =>
              cases hh : c.highlightProduct with
              | raises => simp [hq, ht, hpn]
              | value u =>
                cases hm : env.sendMessage <;> simp [hq, ht, hpn, hm]
        · simp [hq, ht]


theorem addOrUpdate_filter_self (ps : List Product) (x : String) (q : Product) (hq : q.id = x) :
    (addOrUpdate ps x q).filter (fun p => p.id != x) = ps.filter (fun p => p.id != x) := by
  induction ps with
  | nil => simp [addOrUpdate_nil, hq]
  | cons p ps ih =>
    rw [addOrUpdate_cons]
    by_cases h : p.id = x
    · rw [if_pos h]
      simp [hq, h, List.filter_cons]
    · rw [if_neg h]
      simp [List.filter_cons, ih]

/-- Two states that agree on the processed ids, among them `x`, and on the
records of every id but `x`, still do so after the same call. -/
theorem analyzeProduct_agree (a b : RoposoProductAnalyzer) (x : String) (env : Env)
    (c : Container)
    (hproc : a.processedProducts = b.processedProducts) (hx : x ∈ a.processedProducts)
    (hstore : a.excellentProducts.filter (fun p => p.id != x) =
      b.excellentProducts.filter (fun p => p.id != x)) :
    (analyzeProduct a env (some c)).2.processedProducts =
      (analyzeProduct b env (some c)).2.processedProducts ∧
    x ∈ (analyzeProduct a env (some c)).2.processedProducts ∧
    (analyzeProduct a env (some c)).2.excellentProducts.filter (fun p => p.id != x) =
      (analyzeProduct b env (some c)).2.excellentProducts.filter (fun p => p.id != x) := by
  by_cases h0 : c.id = ""
  · rw [analyzeProduct_skip_no_id a env c h0, analyzeProduct_skip_no_id b env c h0]
    exact ⟨hproc, hx, hstore⟩
  · by_cases hp : c.id ∈ a.processedProducts
    · rw [analyzeProduct_skip_processed a env c hp,
        analyzeProduct_skip_processed b env c (hproc ▸ hp)]
      exact ⟨hproc, hx, hstore⟩
    · have hcx : c.id ≠ x := fun h => hp (h ▸ hx)
      obtain ⟨-, sa, pa, -⟩ := analyzeProduct_fields a env c h0 hp
      obtain ⟨-, sb, pb, -⟩ := analyzeProduct_fields b env c h0 (hproc ▸ hp)
      refine ⟨by rw [pa, pb, hproc], by rw [pa]; simp [hx], ?_⟩
      rw [sa, sb]
      split
      · rw [addOrUpdate_filter_ne a.excellentProducts c.id x (productOf env c) rfl hcx,
          addOrUpdate_filter_ne b.excellentProducts c.id x (productOf env c) rfl hcx, hstore]
      · exact hstore

theorem forEach_analyzeProduct_agree (cs : List (Env × Container))
    (a b : RoposoProductAnalyzer) (x : String)
    (hproc : a.processedProducts = b.processedProducts) (hx : x ∈ a.processedProducts)
    (hstore : a.excellentProducts.filter (fun p => p.id != x) =
      b.excellentProducts.filter (fun p => p.id != x)) :
    (forEach (fun self (e : Env × Container) => analyzeProduct self e.1 (some e.2))
        a cs).2.processedProducts =
      (forEach (fun self (e : Env × Container) => analyzeProduct self e.1 (some e.2))
        b cs).2.processedProducts ∧
    (forEach (fun self (e : Env × Container) => analyzeProduct self e.1 (some e.2))
        a cs).2.excellentProducts.filter (fun p => p.id != x) =
      (forEach (fun self (e : Env × Container) => analyzeProduct self e.1 (some e.2))
        b cs).2.excellentProducts.filter (fun p => p.id != x) := by
  induction cs generalizing a b with
  | nil => exact ⟨hproc, hstore⟩
  | cons e es ih =>
    obtain ⟨h1, h2, h3⟩ := analyzeProduct_agree a b x e.1 e.2 hproc hx hstore
    have ka := analyzeProduct_normal a e.1 (some e.2)
    have kb := analyzeProduct_normal b e.1 (some e.2)
    unfold forEach
    rcases hra : analyzeProduct a e.1 (some e.2) with ⟨k1, a1⟩
    rcases hrb : analyzeProduct b e.1 (some e.2) with ⟨k2, b1⟩
    rw [hra] at ka h1 h2 h3
    rw [hrb] at kb h1 h3
    simp only at ka kb h1 h2 h3
    subst ka kb
    simp only
    exact ih a1 b1 h1 h2 h3

/-- C8. Per-container fault policy.  For a container with a non-empty id that
is not yet processed: when a step raises (rating lookup, text read, name
lookup, highlight, badge message) the `try` block ends with an error; in every
case `analyzeProduct` returns without an error and the id is in
`processedProducts` afterwards.  Hence a loop of
`analyzeProduct` over any list of containers is never cut short: it returns
after calling `analyzeProduct` on every container.  And the containers that
follow are processed as they would have been had another container of the
same id stood in place of this one: the two scans end with the same processed
ids and the same records for every other id. -/
theorem C8_fault_policy (self : RoposoProductAnalyzer) (env : Env) (c : Container)
    (hid : c.id ≠ "") (hnew : c.id ∉ self.processedProducts) :
    ((ratingRaises c = true ∨
        (qualifies c = true ∧
          (nameRaises c = true ∨ c.highlightProduct = .raises ∨ env.sendMessage = .raises))) →
      (analyzeTry self env c).1 = .throws) ∧
    (analyzeProduct self env (some c)).1 = .normal ∧
    c.id ∈ (analyzeProduct self env (some c)).2.processedProducts ∧
    (∀ (s : RoposoProductAnalyzer) (cs : List (Env × Container)),
      forEach (fun self (e : Env × Container) => analyzeProduct self e.1 (some e.2)) s cs =
        (.normal, cs.foldl (fun self e => (analyzeProduct self e.1 (some e.2)).2) s)) ∧
    (∀ (env1 : Env) (c1 : Container) (rest : List (Env × Container)), c1.id = c.id →
      (forEach (fun self (e : Env × Container) => analyzeProduct self e.1 (some e.2))
          self ((env, c) :: rest)).2.processedProducts =
        (forEach (fun self (e : Env × Container) => analyzeProduct self e.1 (some e.2))
          self ((env1, c1) :: rest)).2.processedProducts ∧
      (forEach (fun self (e : Env × Container) => analyzeProduct self e.1 (some e.2))
          self ((env, c) :: rest)).2.excellentProducts.filter (fun p => p.id != c.id) =
        (forEach (fun self (e : Env × Container) => analyzeProduct self e.1 (some e.2))
          self ((env1, c1) :: rest)).2.excellentProducts.filter (fun p => p.id != c.id)) := by
  obtain ⟨hk, hst, hpr, -⟩ := analyzeProduct_fields self env c hid hnew
  refine ⟨(analyzeTry_throws_iff self env c).mpr, hk, by rw [hpr]; simp, ?_, ?_⟩
  · intro s cs
    exact forEach_normal _ (fun s e => analyzeProduct_normal s e.1 (some e.2)) cs s
  · intro env1 c1 rest hc1
    obtain ⟨hk1, hst1, hpr1, -⟩ := analyzeProduct_fields self env1 c1 (hc1 ▸ hid) (hc1 ▸ hnew)
    have hfilter : ∀ (e : Env) (d : Container), d.id = c.id →
        (if qualifies d = true ∧ nameRaises d = false
          then addOrUpdate self.excellentProducts d.id (productOf e d)
          else self.excellentProducts).filter (fun p => p.id != c.id) =
        self.excellentProducts.filter (fun p => p.id != c.id) := by
      intro e d hd
      split
      · rw [hd]
        exact addOrUpdate_filter_self self.excellentProducts c.id (productOf e d) hd
      · rfl
    have hagree := forEach_analyzeProduct_agree rest
      (analyzeProduct self env (some c)).2 (analyzeProduct self env1 (some c1)).2 c.id
      (by rw [hpr, hpr1, hc1]) (by rw [hpr]; simp)
      (by rw [hst, hst1, hfilter env c rfl, hfilter env1 c1 hc1])
    have e1 : forEach (fun self (e : Env × Container) => analyzeProduct self e.1 (some e.2))
        self ((env, c) :: rest) =
        forEach (fun self (e : Env × Container) => analyzeProduct self e.1 (some e.2))
          (analyzeProduct self env (some c)).2 rest := by
      conv => lhs; unfold forEach
      rcases hr : analyzeProduct self env (some c) with ⟨k, s1⟩
      rw [hr] at hk
      simp only at hk
      subst hk
      rfl
    have e2 : forEach (fun self (e : Env × Container) => analyzeProduct self e.1 (some e.2))
        self ((env1, c1) :: rest) =
        forEach (fun self (e : Env × Container) => analyzeProduct self e.1 (some e.2))
          (analyzeProduct self env1 (some c1)).2 rest := by
      conv => lhs; unfold forEach
      rcases hr : analyzeProduct self env1 (some c1) with ⟨k, s1⟩
      rw [hr] at hk1
      simp only at hk1
      subst hk1
      rfl
    rw [e1, e2]
    exact hagree

/-- Witness of C8: the malformed card `B` makes the `try` block raise, yet
`analyzeProduct` returns, `B` is marked processed, and a scan of
`[A(excellent), B(malformed), C(good)]` records `A` and `C`. -/
theorem C8_fault_policy_witness :
    (brokenCard "B").id ≠ "" ∧ (brokenCard "B").id ∉ (new 0 0 0).processedProducts ∧
    (analyzeTry (new 0 0 0) (calmEnv 2) (brokenCard "B")).1 = .throws ∧
    (analyzeProduct (new 0 0 0) (calmEnv 2) (some (brokenCard "B"))).1 = .normal ∧
    (brokenCard "B").id ∈
      (analyzeProduct (new 0 0 0) (calmEnv 2) (some (brokenCard "B"))).2.processedProducts ∧
    (forEach (fun self (e : Env × Container) => analyzeProduct self e.1 (some e.2)) (new 0 0 0)
      [(calmEnv 1, card "A" (some "excellent") none), (calmEnv 2, brokenCard "B"),
        (calmEnv 3, card "C" (some "good") none)]).2.excellentProducts.map (fun p => p.id) =
      ["A", "C"] :=
  ⟨by decide, by decide, by decide,
    (C8_fault_policy (new 0 0 0) (calmEnv 2) (brokenCard "B") (by decide) (by decide)).2.1,
    (C8_fault_policy (new 0 0 0) (calmEnv 2) (brokenCard "B") (by decide) (by decide)).2.2.1,
    by decide⟩

/-! ## The observer callback -/

theorem forEach_analyzeProduct_eq (cs : List (Env × Container)) (s : RoposoProductAnalyzer) :
    forEach (fun self (e : Env × Container) => analyzeProduct self e.1 (some e.2)) s cs =
      (.normal, cs.foldl (fun self e => (analyzeProduct self e.1 (some e.2)).2) s) :=
  forEach_normal _ (fun s e => analyzeProduct_normal s e.1 (some e.2)) cs s

/-- The inner loop of the observer: the flag is raised as soon as there is a
container, and the analyzer is the one a plain loop of `analyzeProduct` leaves. -/
theorem forEach_observe_containers (cs : List (Env × Container))
    (st : Bool × RoposoProductAnalyzer) :
    forEach (fun (st : Bool × RoposoProductAnalyzer) (e : Env × Container) =>
        match analyzeProduct st.2 e.1 (some e.2) with
        | (.normal, self) => (Completion.normal, (true, self))
        | (.throws, self) => (Completion.throws, (st.1, self))) st cs =
      (.normal, (st.1 || !cs.isEmpty,
        cs.foldl (fun self e => (analyzeProduct self e.1 (some e.2)).2) st.2)) := by
  induction cs generalizing st with
  | nil => simp [forEach]
  | cons e es ih =>
    have hk := analyzeProduct_normal st.2 e.1 (some e.2)
    unfold forEach
    rcases hr : analyzeProduct st.2 e.1 (some e.2) with ⟨k, s1⟩
    rw [hr] at hk
    simp only at hk
    subst hk
    simp only [List.foldl_cons, hr]
    rw [ih (true, s1)]
    simp

theorem observeNode_eq (st : Bool × RoposoProductAnalyzer) (node : Node) :
    observeNode st node =
      (.normal, (st.1 || !(nodeCandidates node).isEmpty,
        (nodeCandidates node).foldl (fun self e => (analyzeProduct self e.1 (some e.2)).2)
          st.2)) := by
  unfold observeNode nodeCandidates
  by_cases hn : node.nodeType = 1
  · rw [if_pos hn, if_pos hn]
    by_cases hown : node.self.2.id ≠ "" ∧ startsWith node.self.2.id productItemIdStart = true
    · rw [if_pos hown, if_pos hown]
      have hk := analyzeProduct_normal st.2 node.self.1 (some node.self.2)
      rcases hr : analyzeProduct st.2 node.self.1 (some node.self.2) with ⟨k, s1⟩
      rw [hr] at hk
      simp only at hk
      subst hk
      simp only
      rw [forEach_observe_containers]
      simp [hr]
    · rw [if_neg hown, if_neg hown]
      simp only
      rw [forEach_observe_containers]
      simp
  · rw [if_neg hn, if_neg hn]
    simp

theorem forEach_observeNode_eq (nodes : List Node) (st : Bool × RoposoProductAnalyzer) :
    forEach observeNode st nodes =
      (.normal, (st.1 || !((nodes.map nodeCandidates).flatten).isEmpty,
        ((nodes.map nodeCandidates).flatten).foldl
          (fun self e => (analyzeProduct self e.1 (some e.2)).2) st.2)) := by
  induction nodes generalizing st with
  | nil => simp [forEach]
  | cons n ns ih =>
    unfold forEach
    rw [observeNode_eq]
    simp only
    rw [ih]
    simp only [List.map_cons, List.flatten_cons, List.foldl_append, List.isEmpty_eq_true,
      List.append_eq_nil, Bool.or_assoc]
    congr 2
    cases hc : nodeCandidates n <;> simp

theorem observeMutations_eq (self : RoposoProductAnalyzer) (mutations : List MutationRecord) :
    observeMutations self mutations =
      (.normal, (!(batchCandidates mutations).isEmpty,
        (batchCandidates mutations).foldl
          (fun self e => (analyzeProduct self e.1 (some e.2)).2) self)) := by
  have hgen : ∀ (ms : List MutationRecord) (st : Bool × RoposoProductAnalyzer),
      forEach (fun st (mutation : MutationRecord) => forEach observeNode st mutation.addedNodes)
        st ms =
      (.normal, (st.1 || !(batchCandidates ms).isEmpty,
        (batchCandidates ms).foldl
          (fun self e => (analyzeProduct self e.1 (some e.2)).2) st.2)) := by
    intro ms
    induction ms with
    | nil => intro st; simp [forEach, batchCandidates]
    | cons m ms ih =>
      intro st
      unfold forEach
      have h1 := forEach_observeNode_eq m.addedNodes st
      simp only [h1]
      rw [ih]
      simp only [batchCandidates, List.map_cons, List.flatten_cons, List.foldl_append,
        Bool.or_assoc]
      congr 2
      cases hc : (m.addedNodes.map nodeCandidates).flatten <;> simp
  unfold observeMutations
  rw [hgen]
  simp

/-- C9, as stated, fails: a batch whose only candidate is the rejected card `B`
(`poor`) leaves the store as it was, yet the observer sends `updateBadge`; the
same batch delivered again, `B` being processed by then, sends it once more. -/
theorem C9_observer_badge_counterexample :
    (mutationCallback (new 0 0 0)
        [{ addedNodes := [{ nodeType := 1,
                            self := (calmEnv 1, card "category-page-product-item-B" (some "poor") none),
                            descendants := some [] }] }]
        (calmEnv 2)).2.excellentProducts = (new 0 0 0).excellentProducts ∧
    (mutationCallback (new 0 0 0)
        [{ addedNodes := [{ nodeType := 1,
                            self := (calmEnv 1, card "category-page-product-item-B" (some "poor") none),
                            descendants := some [] }] }]
        (calmEnv 2)).2.badgeMessages = [0] ∧
    (mutationCallback (new 0 0 0)
        [{ addedNodes := [{ nodeType := 1,
                            self := (calmEnv 1, card "category-page-product-item-B" (some "poor") none),
                            descendants := some [] }] }]
        (calmEnv 2)).2.processedProducts = ["category-page-product-item-B"] ∧
    (mutationCallback
        (mutationCallback (new 0 0 0)
          [{ addedNodes := [{ nodeType := 1,
                              self := (calmEnv 1, card "category-page-product-item-B" (some "poor") none),
                              descendants := some [] }] }]
          (calmEnv 2)).2
        [{ addedNodes := [{ nodeType := 1,
                            self := (calmEnv 3, card "category-page-product-item-B" (some "poor") none),
                            descendants := some [] }] }]
        (calmEnv 4)).2.badgeMessages = [0, 0] := by
  decide

/-- C9, amended.  The observer callback hands every candidate container of the
batch (an added element node with a product id, and the product containers
inside an added element node) to `analyzeProduct`, and then sends `updateBadge`
iff the batch held at least one candidate, whether or not the store changed.
So a batch that changed the store is followed by the notification, and a batch
without candidates changes nothing and sends nothing. -/
theorem C9_observer_badge_amended (self : RoposoProductAnalyzer)
    (mutations : List MutationRecord) (env : Env) :
    (batchCandidates mutations ≠ [] →
      mutationCallback self mutations env =
        updateBadge
          (forEach (fun self (e : Env × Container) => analyzeProduct self e.1 (some e.2))
            self (batchCandidates mutations)).2 env) ∧
    (batchCandidates mutations = [] → mutationCallback self mutations env = (.normal, self)) ∧
    ((mutationCallback self mutations env).2.excellentProducts ≠ self.excellentProducts →
      batchCandidates mutations ≠ []) := by
  have hcb : mutationCallback self mutations env =
      if (batchCandidates mutations).isEmpty = true then
        (.normal, (batchCandidates mutations).foldl
          (fun self e => (analyzeProduct self e.1 (some e.2)).2) self)
      else updateBadge ((batchCandidates mutations).foldl
          (fun self e => (analyzeProduct self e.1 (some e.2)).2) self) env := by
    unfold mutationCallback
    rw [observeMutations_eq]
    cases hc : batchCandidates mutations <;> simp
  have hnone : batchCandidates mutations = [] →
      mutationCallback self mutations env = (.normal, self) := by
    intro h
    rw [hcb, h]
    rfl
  refine ⟨?_, hnone, ?_⟩
  · intro h
    have hne : ¬ (batchCandidates mutations).isEmpty = true := by
      rw [List.isEmpty_iff]
      exact h
    rw [hcb, if_neg hne, forEach_analyzeProduct_eq]
  · intro hchanged hnil
    apply hchanged
    rw [hnone hnil]

/-- Witness of C9, amended: a batch with the accepted card `A` changes the
store and is followed by the notification of the observer (the second message;
the first is the one `analyzeProduct` sends itself). -/
theorem C9_observer_badge_amended_witness :
    batchCandidates
        [{ addedNodes := [{ nodeType := 1,
                            self := (calmEnv 1, card "category-page-product-item-A" (some "good") none),
                            descendants := some [] }] }] ≠ [] ∧
    mutationCallback (new 0 0 0)
        [{ addedNodes := [{ nodeType := 1,
                            self := (calmEnv 1, card "category-page-product-item-A" (some "good") none),
                            descendants := some [] }] }]
        (calmEnv 2) =
      updateBadge
        (forEach (fun self (e : Env × Container) => analyzeProduct self e.1 (some e.2))
          (new 0 0 0)
          (batchCandidates
            [{ addedNodes := [{ nodeType := 1,
                                self := (calmEnv 1, card "category-page-product-item-A" (some "good") none),
                                descendants := some [] }] }])).2 (calmEnv 2) ∧
    (mutationCallback (new 0 0 0)
        [{ addedNodes := [{ nodeType := 1,
                            self := (calmEnv 1, card "category-page-product-item-A" (some "good") none),
                            descendants := some [] }] }]
        (calmEnv 2)).2.badgeMessages = [1, 1] :=
  ⟨by simp [batchCandidates, nodeCandidates, startsWith, productItemIdStart, card, querySelectorAll],
    (C9_observer_badge_amended (new 0 0 0)
      [{ addedNodes := [{ nodeType := 1,
                          self := (calmEnv 1, card "category-page-product-item-A" (some "good") none),
                          descendants := some [] }] }]
      (calmEnv 2)).1
      (by simp [batchCandidates, nodeCandidates, startsWith, productItemIdStart, card,
        querySelectorAll]),
    by decide⟩

/-! ## The scroll driver in every reachable state -/

/-- C13. Scroll driver invariant.  In every state reached from a new analyzer
(not scrolling, no timer) by any sequence of events, among them any
interleaving of `startAutoScroll`, `stopAutoScroll` and timer firings: at most
one scroll timer is pending, a timer is pending only while `isScrolling` is
true (and it is then the one held in `scrollTimeout`), and `autoScrollEnabled`
equals `isScrolling`. -/
theorem C13_scroll_driver_invariant (scrollY scrollHeight innerHeight : Nat)
    (events : List Event) :
    (run (new scrollY scrollHeight innerHeight) events).timers.length ≤ 1 ∧
    ((run (new scrollY scrollHeight innerHeight) events).timers ≠ [] →
      (run (new scrollY scrollHeight innerHeight) events).isScrolling = true ∧
      ∃ id, (run (new scrollY scrollHeight innerHeight) events).timers = [id] ∧
        (run (new scrollY scrollHeight innerHeight) events).scrollTimeout = some id) ∧
    (run (new scrollY scrollHeight innerHeight) events).autoScrollEnabled =
      (run (new scrollY scrollHeight innerHeight) events).isScrolling := by
  have hinv := run_inv (new scrollY scrollHeight innerHeight) events
    (ScrollInv_new scrollY scrollHeight innerHeight)
  generalize run (new scrollY scrollHeight innerHeight) events = s at hinv
  obtain ⟨hflag, -, -, ht⟩ := hinv
  refine ⟨?_, ?_, hflag⟩
  · rcases ht with ht | ⟨-, id, ht, -⟩
    · rw [ht]; exact Nat.zero_le _
    · rw [ht]; exact Nat.le_refl _
  · intro hne
    rcases ht with ht | ⟨hs, hid⟩
    · exact absurd ht hne
    · exact ⟨hs, hid⟩

/-- Witness of C13: start, first timer fires, stop, start again, with a stale
timer id tried in between; one timer (id 3) is pending at the end. -/
theorem C13_scroll_driver_invariant_witness :
    (run (new 0 5000 800)
      [Event.startAutoScroll, Event.timerFires 1, Event.stopAutoScroll, Event.timerFires 2,
        Event.startAutoScroll]).timers = [3] ∧
    ((run (new 0 5000 800)
        [Event.startAutoScroll, Event.timerFires 1, Event.stopAutoScroll, Event.timerFires 2,
          Event.startAutoScroll]).timers ≠ [] →
      (run (new 0 5000 800)
        [Event.startAutoScroll, Event.timerFires 1, Event.stopAutoScroll, Event.timerFires 2,
          Event.startAutoScroll]).isScrolling = true ∧
      ∃ id, (run (new 0 5000 800)
          [Event.startAutoScroll, Event.timerFires 1, Event.stopAutoScroll, Event.timerFires 2,
            Event.startAutoScroll]).timers = [id] ∧
        (run (new 0 5000 800)
          [Event.startAutoScroll, Event.timerFires 1, Event.stopAutoScroll, Event.timerFires 2,
            Event.startAutoScroll]).scrollTimeout = some id) :=
  ⟨by decide,
    (C13_scroll_driver_invariant 0 5000 800
      [Event.startAutoScroll, Event.timerFires 1, Event.stopAutoScroll, Event.timerFires 2,
        Event.startAutoScroll]).2.1⟩

/-! ## Write-through persistence -/

theorem persisted_iff (self : RoposoProductAnalyzer) :
    Persisted self ↔ self.localStorage.getD [] = self.excellentProducts := by
  unfold Persisted loadExistingProducts
  cases h : self.localStorage <;> simp

theorem persisted_congr (a b : RoposoProductAnalyzer)
    (hstore : b.excellentProducts = a.excellentProducts)
    (hstorage : b.localStorage = a.localStorage) (h : Persisted a) : Persisted b := by
  rw [persisted_iff] at h ⊢
  rw [hstore, hstorage]
  exact h

theorem updateBadge_localStorage (self : RoposoProductAnalyzer) (env : Env) :
    (updateBadge self env).2.localStorage = self.localStorage := by
  unfold updateBadge
  cases env.sendMessage <;> rfl

theorem updateBadge_persisted (self : RoposoProductAnalyzer) (env : Env) (h : Persisted self) :
    Persisted (updateBadge self env).2 :=
  persisted_congr self _ (updateBadge_store self env) (updateBadge_localStorage self env) h

/-- A call whose `setItem` and highlight do not raise keeps the stored entry
equal to the store. -/
theorem analyzeProduct_persisted (self : RoposoProductAnalyzer) (env : Env) (c : Container)
    (hset : env.setItem = .value ()) (hhl : c.highlightProduct = .value ())
    (h : Persisted self) : Persisted (analyzeProduct self env (some c)).2 := by
  by_cases h0 : c.id = ""
  · rw [analyzeProduct_skip_no_id self env c h0]; exact h
  · by_cases hp : c.id ∈ self.processedProducts
    · rw [analyzeProduct_skip_processed self env c hp]; exact h
    · obtain ⟨-, hst, -, -, hls, -⟩ := analyzeProduct_fields self env c h0 hp
      by_cases hq : qualifies c = true ∧ nameRaises c = false
      · rw [if_pos hq] at hst
        rw [if_pos ⟨hq.1, hq.2, hhl, hset⟩] at hls
        rw [persisted_iff, hst, hls]
        rfl
      · rw [if_neg hq] at hst
        rw [if_neg (fun hc => hq ⟨hc.1, hc.2.1⟩)] at hls
        exact persisted_congr self _ hst hls h

theorem foldl_analyzeProduct_persisted (cs : List (Env × Container))
    (self : RoposoProductAnalyzer)
    (hset : ∀ v ∈ cs, v.1.setItem = .value ())
    (hhl : ∀ v ∈ cs, v.2.highlightProduct = .value ())
    (h : Persisted self) :
    Persisted (cs.foldl (fun self e => (analyzeProduct self e.1 (some e.2)).2) self) := by
  induction cs generalizing self with
  | nil => exact h
  | cons e es ih =>
    simp only [List.foldl_cons]
    apply ih
    · exact fun v hv => hset v (List.mem_cons_of_mem _ hv)
    · exact fun v hv => hhl v (List.mem_cons_of_mem _ hv)
    · exact analyzeProduct_persisted self e.1 e.2 (hset e (List.mem_cons_self _ _))
        (hhl e (List.mem_cons_self _ _)) h

theorem scanExistingProducts_eq (self : RoposoProductAnalyzer)
    (document : List (Env × Container)) (env : Env) :
    scanExistingProducts self document env =
      updateBadge ((querySelectorAll document).foldl
        (fun self e => (analyzeProduct self e.1 (some e.2)).2) self) env := by
  unfold scanExistingProducts
  simp only [forEach_analyzeProduct_eq]

theorem mutationCallback_cases (self : RoposoProductAnalyzer)
    (mutations : List MutationRecord) (env : Env) :
    (mutationCallback self mutations env).2 =
        (batchCandidates mutations).foldl
          (fun self e => (analyzeProduct self e.1 (some e.2)).2) self ∨
    (mutationCallback self mutations env).2 =
        (updateBadge ((batchCandidates mutations).foldl
          (fun self e => (analyzeProduct self e.1 (some e.2)).2) self) env).2 := by
  unfold mutationCallback
  rw [observeMutations_eq]
  cases hc : (batchCandidates mutations).isEmpty
  · right; simp
  · left; simp

theorem loadExistingProducts_persisted (self : RoposoProductAnalyzer) :
    Persisted (loadExistingProducts self (.value ())) := by
  rw [persisted_iff]
  unfold loadExistingProducts
  cases h : self.localStorage <;> simp [h]

theorem step_persisted (self : RoposoProductAnalyzer) (e : Event)
    (hstorage : e.storageAnswers) (hhighlight : e.highlightAnswers) (h : Persisted self) :
    Persisted (step self e) := by
  obtain ⟨hset, hother⟩ := hstorage
  cases e with
  | analyzeProduct env container =>
    cases container with
    | none => exact h
    | some c =>
      exact analyzeProduct_persisted self env c
        (hset (env, c) (by simp [Event.visits])) (hhighlight (env, c) (by simp [Event.visits])) h
  | scanExistingProducts document env =>
    simp only [step, scanExistingProducts_eq]
    exact updateBadge_persisted _ env (foldl_analyzeProduct_persisted _ self hset hhighlight h)
  | rescanAllProducts document env =>
    simp only [step, rescanAllProducts, scanExistingProducts_eq]
    exact updateBadge_persisted _ env
      (foldl_analyzeProduct_persisted _ { self with processedProducts := [] } hset hhighlight
        (persisted_congr self _ rfl rfl h))
  | mutations batch env =>
    have hx := foldl_analyzeProduct_persisted (batchCandidates batch) self hset hhighlight h
    rcases mutationCallback_cases self batch env with hc | hc
    · simp only [step, hc]; exact hx
    · simp only [step, hc]; exact updateBadge_persisted _ env hx
  | loadExistingProducts getItem =>
    simp only at hother
    subst hother
    exact loadExistingProducts_persisted self
  | clearAllData removeItem env =>
    simp only at hother
    subst hother
    simp only [step, clearAllData]
    apply updateBadge_persisted
    rw [persisted_iff]
    rfl
  | startAutoScroll =>
    have hs := startAutoScroll_scanEngine self
    simp only [scanEngine, Prod.mk.injEq] at hs
    exact persisted_congr self _ hs.1 hs.2.2.1 h
  | stopAutoScroll =>
    have hs := stopAutoScroll_scanEngine self
    simp only [scanEngine, Prod.mk.injEq] at hs
    exact persisted_congr self _ hs.1 hs.2.2.1 h
  | timerFires id =>
    have hs := timerFires_scanEngine self id
    simp only [scanEngine, Prod.mk.injEq] at hs
    exact persisted_congr self _ hs.1 hs.2.2.1 h
  | page y sh ih => exact persisted_congr self _ rfl rfl h

theorem run_persisted (self : RoposoProductAnalyzer) (events : List Event)
    (hstorage : ∀ e ∈ events, e.storageAnswers) (hhighlight : ∀ e ∈ events, e.highlightAnswers)
    (h : Persisted self) : Persisted (run self events) := by
  induction events generalizing self with
  | nil => exact h
  | cons e es ih =>
    simp only [run, List.foldl_cons]
    apply ih
    · exact fun x hx => hstorage x (List.mem_cons_of_mem _ hx)
    · exact fun x hx => hhighlight x (List.mem_cons_of_mem _ hx)
    · exact step_persisted self e (hstorage e (List.mem_cons_self _ _))
        (hhighlight e (List.mem_cons_self _ _)) h

/-- The state `init` leaves is the one of a load followed by a scan. -/
theorem init_eq_run (self : RoposoProductAnalyzer) (getItem : Outcome Unit)
    (document : List (Env × Container)) (env : Env) :
    (init self getItem document env).2 =
      run self [Event.loadExistingProducts getItem, Event.scanExistingProducts document env] :=
  rfl

/-- C11, as stated, fails: after `init` on an empty page, with a `localStorage`
that answers every call, `analyzeProduct` adds the accepted card `A`, the
highlight raises on it (the element has no `style`), and `saveProducts` is not
reached: the store holds `A`, the entry `'excellentProducts'` is still absent,
and `loadExistingProducts` would give the empty store. -/
theorem C11_write_through_counterexample :
    (calmEnv 1).setItem = .value () ∧
    (analyzeProduct (init (new 0 0 0) (.value ()) [] (calmEnv 0)).2 (calmEnv 1)
        (some (unstyledCard "category-page-product-item-A" (some "good")
          none))).2.excellentProducts =
      [{ id := "category-page-product-item-A", name := "Product category-page-product-item-A",
         rating := "good", timestamp := 1, url := "https://app.roposoclout.com/marketplace" }] ∧
    (analyzeProduct (init (new 0 0 0) (.value ()) [] (calmEnv 0)).2 (calmEnv 1)
        (some (unstyledCard "category-page-product-item-A" (some "good")
          none))).2.localStorage = none ∧
    (loadExistingProducts
        (analyzeProduct (init (new 0 0 0) (.value ()) [] (calmEnv 0)).2 (calmEnv 1)
          (some (unstyledCard "category-page-product-item-A" (some "good") none))).2
        (.value ())).excellentProducts = [] := by
  decide

/-- C11, amended.  (a) When neither `localStorage.setItem` nor the highlight
raises, a call of `analyzeProduct` that adds or updates a record leaves the
entry `'excellentProducts'` equal to the array `excellentProducts`.  (b) Hence
in every state reached from `init` (whose `getItem` is answered) by events
during which no call into `localStorage` raises and no highlight raises (calls
of `analyzeProduct`, `scanExistingProducts`, `rescanAllProducts`,
`clearAllData`, `loadExistingProducts`, observer batches, the scroll driver),
a `loadExistingProducts` would yield exactly the store held in memory. -/
theorem C11_write_through_amended (self : RoposoProductAnalyzer) (env : Env) (c : Container)
    (self0 : RoposoProductAnalyzer) (document : List (Env × Container)) (env0 : Env)
    (events : List Event) :
    (c.id ≠ "" → c.id ∉ self.processedProducts → qualifies c = true → nameRaises c = false →
      c.highlightProduct = .value () → env.setItem = .value () →
      (analyzeProduct self env (some c)).2.localStorage =
        some (analyzeProduct self env (some c)).2.excellentProducts) ∧
    ((∀ v ∈ querySelectorAll document,
        v.1.setItem = .value () ∧ v.2.highlightProduct = .value ()) →
      (∀ e ∈ events, e.storageAnswers ∧ e.highlightAnswers) →
      (loadExistingProducts (run (init self0 (.value ()) document env0).2 events)
          (.value ())).excellentProducts =
        (run (init self0 (.value ()) document env0).2 events).excellentProducts) := by
  constructor
  · intro h0 hp hq hn hhl hset
    obtain ⟨-, hst, -, -, hls, -⟩ := analyzeProduct_fields self env c h0 hp
    rw [if_pos ⟨hq, hn⟩] at hst
    rw [if_pos ⟨hq, hn, hhl, hset⟩] at hls
    rw [hst, hls]
  · intro hdoc hev
    rw [init_eq_run]
    have h1 : Persisted (run self0 [Event.loadExistingProducts (.value ()),
        Event.scanExistingProducts document env0]) := by
      simp only [run, List.foldl_cons, List.foldl_nil]
      apply step_persisted
      · exact ⟨fun v hv => (hdoc v hv).1, trivial⟩
      · exact fun v hv => (hdoc v hv).2
      · exact loadExistingProducts_persisted self0
    exact run_persisted _ events (fun e he => (hev e he).1) (fun e he => (hev e he).2) h1

/-- Witness of C11, amended: a browser with the record `B` stored; `init` on a
page holding `A` (`good`), then a rescan, then `clearAllData`, then an observer
batch with `C` (`excellent`); the store, `[C]`, is what a load would give. -/
theorem C11_write_through_amended_witness :
    (analyzeProduct (new 0 0 0) (calmEnv 1)
        (some (card "category-page-product-item-A" (some "good") none))).2.localStorage =
      some (analyzeProduct (new 0 0 0) (calmEnv 1)
        (some (card "category-page-product-item-A" (some "good") none))).2.excellentProducts ∧
    (loadExistingProducts
        (run (init
            { new 0 0 0 with
              localStorage := some [{ id := "category-page-product-item-B", name := "Hat",
                                      rating := "good", timestamp := 0, url := "u" }] }
            (.value ())
            [(calmEnv 1, card "category-page-product-item-A" (some "good") none)]
            (calmEnv 2)).2
          [Event.rescanAllProducts
              [(calmEnv 3, card "category-page-product-item-A" (some "good") none)] (calmEnv 4),
            Event.clearAllData (.value ()) (calmEnv 5),
            Event.mutations
              [{ addedNodes := [{ nodeType := 1,
                                  self := (calmEnv 6,
                                    card "category-page-product-item-C" (some "excellent") none),
                                  descendants := some [] }] }]
              (calmEnv 7)])
        (.value ())).excellentProducts =
      (run (init
          { new 0 0 0 with
            localStorage := some [{ id := "category-page-product-item-B", name := "Hat",
                                    rating := "good", timestamp := 0, url := "u" }] }
          (.value ())
          [(calmEnv 1, card "category-page-product-item-A" (some "good") none)]
          (calmEnv 2)).2
        [Event.rescanAllProducts
            [(calmEnv 3, card "category-page-product-item-A" (some "good") none)] (calmEnv 4),
          Event.clearAllData (.value ()) (calmEnv 5),
          Event.mutations
            [{ addedNodes := [{ nodeType := 1,
                                self := (calmEnv 6,
                                  card "category-page-product-item-C" (some "excellent") none),
                                descendants := some [] }] }]
            (calmEnv 7)]).excellentProducts ∧
    (run (init
          { new 0 0 0 with
            localStorage := some [{ id := "category-page-product-item-B", name := "Hat",
                                    rating := "good", timestamp := 0, url := "u" }] }
          (.value ())
          [(calmEnv 1, card "category-page-product-item-A" (some "good") none)]
          (calmEnv 2)).2
        [Event.rescanAllProducts
            [(calmEnv 3, card "category-page-product-item-A" (some "good") none)] (calmEnv 4),
          Event.clearAllData (.value ()) (calmEnv 5),
          Event.mutations
            [{ addedNodes := [{ nodeType := 1,
                                self := (calmEnv 6,
                                  card "category-page-product-item-C" (some "excellent") none),
                                descendants := some [] }] }]
            (calmEnv 7)]).excellentProducts.map (fun p => p.id) =
      ["category-page-product-item-C"] :=
  ⟨(C11_write_through_amended (new 0 0 0) (calmEnv 1)
      (card "category-page-product-item-A" (some "good") none) (new 0 0 0) [] (calmEnv 0) []).1
      (by decide) (by decide) (by decide) (by decide) rfl rfl,
    (C11_write_through_amended (new 0 0 0) (calmEnv 1)
      (card "category-page-product-item-A" (some "good") none)
      { new 0 0 0 with
        localStorage := some [{ id := "category-page-product-item-B", name := "Hat",
                                rating := "good", timestamp := 0, url := "u" }] }
      [(calmEnv 1, card "category-page-product-item-A" (some "good") none)]
      (calmEnv 2)
      [Event.rescanAllProducts
          [(calmEnv 3, card "category-page-product-item-A" (some "good") none)] (calmEnv 4),
        Event.clearAllData (.value ()) (calmEnv 5),
        Event.mutations
          [{ addedNodes := [{ nodeType := 1,
                              self := (calmEnv 6,
                                card "category-page-product-item-C" (some "excellent") none),
                              descendants := some [] }] }]
          (calmEnv 7)]).2
      (by simp [querySelectorAll, startsWith, productItemIdStart, card, calmEnv])
      (by simp [Event.storageAnswers, Event.highlightAnswers, Event.visits, querySelectorAll,
        batchCandidates, nodeCandidates, startsWith, productItemIdStart, card, calmEnv]),
    by decide⟩

/-! ## The fallback of the popup -/

/-- C12. The fallback of `loadProductData` does not show what `saveProducts`
persisted.  The content script accepts the card `A` and writes the array to
the `localStorage` of the page; the request of the popup then fails
(`chrome.runtime.lastError` is set, or no response comes, or the response has
no `products`), and `loadFromLocalStorage` reads `chrome.storage.local`, where
nothing was written: the popup lists no product and shows the count 0,
whereas the persisted array holds `A`.  In general the fallback shows the
entry of `chrome.storage.local` whatever the content script persisted, while
an answered request shows the store of the content script, newest first. -/
theorem C12_fallback_reads_extension_storage :
    (analyzeProduct (new 0 0 0) (calmEnv 1)
        (some (card "category-page-product-item-A" (some "good") none))).2.localStorage =
      some [{ id := "category-page-product-item-A",
              name := "Product category-page-product-item-A", rating := "good", timestamp := 1,
              url := "https://app.roposoclout.com/marketplace" }] ∧
    loadProductData { productsList := [], productCount := 0, processedCount := 0 } true none
        none =
      { productsList := [], productCount := 0, processedCount := 0 } ∧
    (∀ (popup : Popup) (response : Option Response) (storageLocal : Option (List Product)),
      loadProductData popup true response storageLocal =
        loadFromLocalStorage popup storageLocal) ∧
    (∀ (popup : Popup) (storageLocal : Option (List Product)),
      loadProductData popup false none storageLocal =
        loadFromLocalStorage popup storageLocal) ∧
    (∀ (popup : Popup) (count : Nat) (processed : Option Nat)
        (storageLocal : Option (List Product)),
      loadProductData popup false
          (some { products := none, count := count, processedCount := processed })
          storageLocal =
        loadFromLocalStorage popup storageLocal) ∧
    (∀ (popup : Popup) (storageLocal : Option (List Product)),
      (loadFromLocalStorage popup storageLocal).productsList =
        (displayProducts popup (storageLocal.getD [])).productsList ∧
      (loadFromLocalStorage popup storageLocal).productCount = (storageLocal.getD []).length) ∧
    (loadProductData { productsList := [], productCount := 0, processedCount := 0 } false
        (some (getExcellentProductsResponse
          (analyzeProduct (new 0 0 0) (calmEnv 1)
            (some (card "category-page-product-item-A" (some "good") none))).2))
        none).productsList =
      [{ id := "category-page-product-item-A",
         name := "Product category-page-product-item-A", rating := "good", timestamp := 1,
         url := "https://app.roposoclout.com/marketplace" }] := by
  refine ⟨by decide, by decide, ?_, ?_, ?_, ?_, by decide⟩
  · intro popup response storageLocal
    simp [loadProductData]
  · intro popup storageLocal
    simp [loadProductData]
  · intro popup count processed storageLocal
    simp [loadProductData]
  · intro popup storageLocal
    exact ⟨rfl, rfl⟩

end Roposo
